import Mathlib

/-!
# promisedyntracer: the denoted-value model

A shallow embedding of `src/DenotedValue.h` (class `DenotedValue` and its nested
class `Argument`) and of the functions `to_analysis_switch`, `escape`, `copy_string` and
`timestamp` of `src/utilities.cpp`.  Every member function of the class is a Lean function
on an explicit state record `DenotedValue`; a mutating member returns the new state.

Conventions
* `std::uint8_t` counters are `Nat` fields; each increment and each `std::uint8_t` return
  value is reduced `% 256` explicitly.
* `std::vector<Argument>` is a `List Argument` whose last element is `back()`;
  `push_back` appends at the end and `pop_back` is `List.dropLast`.
* `back()` of an empty vector has no defined result, so the getters that read `back()`
  return an `Option`.
* Pointers (`SEXP`, `Call*`) are natural-number handles, `0` being the null pointer.
* Constants and helper functions that are declared outside the files at hand
  (`PROMSXP`, `UNASSIGNEDSXP`, `type_of_sexp`, ...) are fields of the parameter record `Host`.
-/

namespace PromiseDynTracer

/-! ## Scalar types -/

/-- Type tag, `typedef unsigned int sexptype_t` (sexptypes.h). No arithmetic is done on it. -/
abbrev sexptype_t := Nat

/-- Handle of a host runtime object (`SEXP`); `0` is the null pointer. -/
abbrev SEXP := Nat

/-- Handle of a call record (`Call*`); `0` is the null pointer. -/
abbrev CallPtr := Nat

/-- Identifier of a denoted value. -/
abbrev denoted_value_id_t := Nat

/-- Identifier of a call. -/
abbrev call_id_t := Int

/-- Identifier of a function. -/
abbrev function_id_t := String

/-- Clock reading. -/
abbrev timestamp_t := Nat

/-- Evaluation depth of a promise. -/
abbrev eval_depth_t := Int

/-- The null pointer. -/
def nullptr : Nat := 0

/-- Constants and host-runtime helpers used by `DenotedValue.h` whose declarations live
outside the files at hand.  They are parameters of the construction functions. -/
structure Host where
  PROMSXP : sexptype_t
  UNASSIGNEDSXP : sexptype_t
  UNASSIGNED_FORMAL_PARAMETER_POSITION : Int
  UNASSIGNED_ACTUAL_ARGUMENT_POSITION : Int
  UNASSIGNED_FUNCTION_ID : function_id_t
  UNASSIGNED_CLASS_NAME : String
  UNDEFINED_TIMESTAMP : timestamp_t
  UNASSIGNED_PROMISE_EVAL_DEPTH : eval_depth_t
  UNASSIGNED_CALL_ID : call_id_t
  type_of_sexp : SEXP → sexptype_t
  dyntrace_get_promise_expression : SEXP → SEXP
  dyntrace_get_promise_value : SEXP → SEXP
  dyntrace_get_promise_environment : SEXP → SEXP

/-! ## `DenotedValue::Argument` (DenotedValue.h:378-407) -/

/-- Nested class `Argument`: one argument-binding relationship. -/
structure Argument where
  call_ : CallPtr
  formal_parameter_position_ : Int
  actual_argument_position_ : Int
  default_ : Bool
  deriving DecidableEq, Repr

/-- Member `Argument::get_call`. -/
@[simp]
def Argument.get_call (a : Argument) : CallPtr := a.call_

/-- Member `Argument::get_formal_parameter_position`. -/
@[simp]
def Argument.get_formal_parameter_position (a : Argument) : Int :=
  a.formal_parameter_position_

/-- Member `Argument::get_actual_argument_position`. -/
@[simp]
def Argument.get_actual_argument_position (a : Argument) : Int :=
  a.actual_argument_position_

/-- Member `Argument::is_default`. -/
@[simp]
def Argument.is_default (a : Argument) : Bool := a.default_

/-! ## `DenotedValue`: the data members (DenotedValue.h:489-534) -/

/-- Data members of class `DenotedValue`, in declaration order. -/
structure DenotedValue where
  id_ : denoted_value_id_t
  type_ : sexptype_t
  expression_type_ : sexptype_t
  value_type_ : sexptype_t
  environment_ : SEXP
  local_ : Bool
  active_ : Bool
  argument_stack_ : List Argument
  default_ : Bool
  evaluated_ : Bool
  was_argument_ : Bool
  scope_ : function_id_t
  class_name_ : String
  dispatchee_ : Bool
  non_local_return_ : Bool
  creation_timestamp_ : timestamp_t
  transitive_side_effect_observer_ : Bool
  direct_side_effect_observer_ : Bool
  transitive_side_effect_creator_ : Bool
  direct_side_effect_creator_ : Bool
  transitive_lexical_scope_mutator_ : Bool
  direct_lexical_scope_mutator_ : Bool
  transitive_non_lexical_scope_mutator_ : Bool
  direct_non_lexical_scope_mutator_ : Bool
  execution_time_ : Float
  escape_ : Bool
  eval_depth_ : eval_depth_t
  previous_call_id_ : call_id_t
  previous_function_id_ : function_id_t
  previous_formal_parameter_position_ : Int
  previous_actual_argument_position_ : Int
  previous_call_return_value_type_ : sexptype_t
  before_escape_force_count_ : Nat
  force_count_ : Nat
  before_escape_value_lookup_count_ : Nat
  value_lookup_count_ : Nat
  before_escape_value_assign_count_ : Nat
  value_assign_count_ : Nat
  before_escape_expression_lookup_count_ : Nat
  expression_lookup_count_ : Nat
  before_escape_expression_assign_count_ : Nat
  expression_assign_count_ : Nat
  before_escape_environment_lookup_count_ : Nat
  environment_lookup_count_ : Nat
  before_escape_environment_assign_count_ : Nat
  environment_assign_count_ : Nat

/-! ## Getters and setters (DenotedValue.h:25-204, 331-375) -/

/-- Member `get_id`. -/
@[simp]
def DenotedValue.get_id (d : DenotedValue) : denoted_value_id_t := d.id_

/-- Member `get_type`. -/
@[simp]
def DenotedValue.get_type (d : DenotedValue) : sexptype_t := d.type_

/-- Member `is_promise`: `get_type() == PROMSXP`. -/
@[simp]
def DenotedValue.is_promise (H : Host) (d : DenotedValue) : Bool :=
  d.get_type == H.PROMSXP

/-- Member `is_local`. -/
@[simp]
def DenotedValue.is_local (d : DenotedValue) : Bool := d.local_

/-- Member `is_active`. -/
@[simp]
def DenotedValue.is_active (d : DenotedValue) : Bool := d.active_

/-- Member `set_active`. -/
@[simp]
def DenotedValue.set_active (d : DenotedValue) : DenotedValue :=
  { d with active_ := true }

/-- Member `set_inactive`. -/
@[simp]
def DenotedValue.set_inactive (d : DenotedValue) : DenotedValue :=
  { d with active_ := false }

/-- Member `get_call`: `argument_stack_.back().get_call()`. -/
@[simp]
def DenotedValue.get_call (d : DenotedValue) : Option CallPtr :=
  d.argument_stack_.getLast?.map Argument.get_call

/-- Member `get_formal_parameter_position`:
`argument_stack_.back().get_formal_parameter_position()`. -/
@[simp]
def DenotedValue.get_formal_parameter_position (d : DenotedValue) : Option Int :=
  d.argument_stack_.getLast?.map Argument.get_formal_parameter_position

/-- Member `get_actual_argument_position`:
`argument_stack_.back().get_actual_argument_position()`. -/
@[simp]
def DenotedValue.get_actual_argument_position (d : DenotedValue) : Option Int :=
  d.argument_stack_.getLast?.map Argument.get_actual_argument_position

/-- Member `get_expression` (a stub in the source). -/
@[simp]
def DenotedValue.get_expression (_d : DenotedValue) : String := "UNIMPLEMENTED"

/-- Member `is_argument`: `argument_stack_.size() > 1`. -/
@[simp]
def DenotedValue.is_argument (d : DenotedValue) : Bool :=
  decide (d.argument_stack_.length > 1)

/-- Member `was_argument`. -/
@[simp]
def DenotedValue.was_argument (d : DenotedValue) : Bool := d.was_argument_

/-- Member `is_free`: `!(is_argument() || was_argument())`. -/
@[simp]
def DenotedValue.is_free (d : DenotedValue) : Bool :=
  !(d.is_argument || d.was_argument)

/-- Member `is_default`: `argument_stack_.back().is_default()`. -/
@[simp]
def DenotedValue.is_default (d : DenotedValue) : Option Bool :=
  d.argument_stack_.getLast?.map Argument.is_default

/-- Member `get_scope`. -/
@[simp]
def DenotedValue.get_scope (d : DenotedValue) : function_id_t := d.scope_

/-- Member `set_scope`. -/
@[simp]
def DenotedValue.set_scope (d : DenotedValue) (scope : function_id_t) : DenotedValue :=
  { d with scope_ := scope }

/-- Member `get_class_name`. -/
@[simp]
def DenotedValue.get_class_name (d : DenotedValue) : String := d.class_name_

/-- Member `set_class_name`. -/
@[simp]
def DenotedValue.set_class_name (d : DenotedValue) (class_name : String) : DenotedValue :=
  { d with class_name_ := class_name }

/-- Member `is_dispatchee`. -/
@[simp]
def DenotedValue.is_dispatchee (d : DenotedValue) : Bool := d.dispatchee_

/-- Member `set_dispatchee`. -/
@[simp]
def DenotedValue.set_dispatchee (d : DenotedValue) : DenotedValue :=
  { d with dispatchee_ := true }

/-- Member `set_non_local_return`. -/
@[simp]
def DenotedValue.set_non_local_return (d : DenotedValue) : DenotedValue :=
  { d with non_local_return_ := true }

/-- Member `does_non_local_return`. -/
@[simp]
def DenotedValue.does_non_local_return (d : DenotedValue) : Bool := d.non_local_return_

/-- Member `unset_dispatchee`. -/
@[simp]
def DenotedValue.unset_dispatchee (d : DenotedValue) : DenotedValue :=
  { d with dispatchee_ := false }

/-- Member `is_transitive_side_effect_observer`. -/
@[simp]
def DenotedValue.is_transitive_side_effect_observer (d : DenotedValue) : Bool :=
  d.transitive_side_effect_observer_

/-- Member `is_direct_side_effect_observer`. -/
@[simp]
def DenotedValue.is_direct_side_effect_observer (d : DenotedValue) : Bool :=
  d.direct_side_effect_observer_

/-- Member `is_transitive_side_effect_creator`. -/
@[simp]
def DenotedValue.is_transitive_side_effect_creator (d : DenotedValue) : Bool :=
  d.transitive_side_effect_creator_

/-- Member `is_direct_side_effect_creator`. -/
@[simp]
def DenotedValue.is_direct_side_effect_creator (d : DenotedValue) : Bool :=
  d.direct_side_effect_creator_

/-- Member `is_transitive_lexical_scope_mutator`. -/
@[simp]
def DenotedValue.is_transitive_lexical_scope_mutator (d : DenotedValue) : Bool :=
  d.transitive_lexical_scope_mutator_

/-- Member `is_direct_lexical_scope_mutator`. -/
@[simp]
def DenotedValue.is_direct_lexical_scope_mutator (d : DenotedValue) : Bool :=
  d.direct_lexical_scope_mutator_

/-- Member `is_transitive_non_lexical_scope_mutator`. -/
@[simp]
def DenotedValue.is_transitive_non_lexical_scope_mutator (d : DenotedValue) : Bool :=
  d.transitive_non_lexical_scope_mutator_

/-- Member `is_direct_non_lexical_scope_mutator`. -/
@[simp]
def DenotedValue.is_direct_non_lexical_scope_mutator (d : DenotedValue) : Bool :=
  d.direct_non_lexical_scope_mutator_

/-- Member `set_transitive_side_effect_observer`. -/
@[simp]
def DenotedValue.set_transitive_side_effect_observer (d : DenotedValue) : DenotedValue :=
  { d with transitive_side_effect_observer_ := true }

/-- Member `set_direct_side_effect_observer`. -/
@[simp]
def DenotedValue.set_direct_side_effect_observer (d : DenotedValue) : DenotedValue :=
  { d with direct_side_effect_observer_ := true }

/-- Member `set_transitive_side_effect_creator`. -/
@[simp]
def DenotedValue.set_transitive_side_effect_creator (d : DenotedValue) : DenotedValue :=
  { d with transitive_side_effect_creator_ := true }

/-- Member `set_direct_side_effect_creator`. -/
@[simp]
def DenotedValue.set_direct_side_effect_creator (d : DenotedValue) : DenotedValue :=
  { d with direct_side_effect_creator_ := true }

/-- Member `set_transitive_lexical_scope_mutator`. -/
@[simp]
def DenotedValue.set_transitive_lexical_scope_mutator (d : DenotedValue) : DenotedValue :=
  { d with transitive_lexical_scope_mutator_ := true }

/-- Member `set_direct_lexical_scope_mutator`. -/
@[simp]
def DenotedValue.set_direct_lexical_scope_mutator (d : DenotedValue) : DenotedValue :=
  { d with direct_lexical_scope_mutator_ := true }

/-- Member `set_transitive_non_lexical_scope_mutator`. -/
@[simp]
def DenotedValue.set_transitive_non_lexical_scope_mutator (d : DenotedValue) : DenotedValue :=
  { d with transitive_non_lexical_scope_mutator_ := true }

/-- Member `set_direct_non_lexical_scope_mutator`. -/
@[simp]
def DenotedValue.set_direct_non_lexical_scope_mutator (d : DenotedValue) : DenotedValue :=
  { d with direct_non_lexical_scope_mutator_ := true }

/-- Member `set_creation_timestamp`. -/
@[simp]
def DenotedValue.set_creation_timestamp (d : DenotedValue) (creation_timestamp : timestamp_t) :
    DenotedValue :=
  { d with creation_timestamp_ := creation_timestamp }

/-- Member `get_creation_timestamp`. -/
@[simp]
def DenotedValue.get_creation_timestamp (d : DenotedValue) : timestamp_t :=
  d.creation_timestamp_

/-- Member `get_execution_time`. -/
@[simp]
def DenotedValue.get_execution_time (d : DenotedValue) : Float := d.execution_time_

/-- Member `set_execution_time`. -/
@[simp]
def DenotedValue.set_execution_time (d : DenotedValue) (execution_time : Float) : DenotedValue :=
  { d with execution_time_ := execution_time }

/-- Member `add_execution_time`: `execution_time_ += execution_time`. -/
@[simp]
def DenotedValue.add_execution_time (d : DenotedValue) (execution_time : Float) : DenotedValue :=
  { d with execution_time_ := d.execution_time_ + execution_time }

/-- Member `set_environment`. -/
@[simp]
def DenotedValue.set_environment (d : DenotedValue) (environment : SEXP) : DenotedValue :=
  { d with environment_ := environment }

/-- Member `get_environment`. -/
@[simp]
def DenotedValue.get_environment (d : DenotedValue) : SEXP := d.environment_

/-- Member `get_expression_type`. -/
@[simp]
def DenotedValue.get_expression_type (d : DenotedValue) : sexptype_t := d.expression_type_

/-- Member `set_expression_type`. -/
@[simp]
def DenotedValue.set_expression_type (d : DenotedValue) (expression_type : sexptype_t) :
    DenotedValue :=
  { d with expression_type_ := expression_type }

/-- Member `get_value_type`. -/
@[simp]
def DenotedValue.get_value_type (d : DenotedValue) : sexptype_t := d.value_type_

/-- Member `set_value_type`. -/
@[simp]
def DenotedValue.set_value_type (d : DenotedValue) (value_type : sexptype_t) : DenotedValue :=
  { d with value_type_ := value_type }

/-- Member `has_escaped`. -/
@[simp]
def DenotedValue.has_escaped (d : DenotedValue) : Bool := d.escape_

/-- Member `set_evaluation_depth`. -/
@[simp]
def DenotedValue.set_evaluation_depth (d : DenotedValue) (eval_depth : eval_depth_t) :
    DenotedValue :=
  { d with eval_depth_ := eval_depth }

/-- Member `get_evaluation_depth`. -/
@[simp]
def DenotedValue.get_evaluation_depth (d : DenotedValue) : eval_depth_t := d.eval_depth_

/-- Member `get_previous_call_id`. -/
@[simp]
def DenotedValue.get_previous_call_id (d : DenotedValue) : call_id_t := d.previous_call_id_

/-- Member `get_previous_function_id`. -/
@[simp]
def DenotedValue.get_previous_function_id (d : DenotedValue) : function_id_t :=
  d.previous_function_id_

/-- Member `get_previous_formal_parameter_position`. -/
@[simp]
def DenotedValue.get_previous_formal_parameter_position (d : DenotedValue) : Int :=
  d.previous_formal_parameter_position_

/-- Member `get_previous_actual_argument_position`. -/
@[simp]
def DenotedValue.get_previous_actual_argument_position (d : DenotedValue) : Int :=
  d.previous_actual_argument_position_

/-- Member `get_previous_call_return_value_type`. -/
@[simp]
def DenotedValue.get_previous_call_return_value_type (d : DenotedValue) : sexptype_t :=
  d.previous_call_return_value_type_

/-! ## Escape detection (DenotedValue.h:448-487) -/

/-- Private member `check_and_set_escape_`: nothing when already escaped; otherwise, when
`!is_argument() && was_argument()`, set `escape_` and move every live counter into its
`before_escape_` twin, resetting the live counter to zero. -/
@[simp]
def DenotedValue.check_and_set_escape_ (d : DenotedValue) : DenotedValue :=
  if d.has_escaped then d
  else if !d.is_argument && d.was_argument then
    { d with
      escape_ := true
      before_escape_force_count_ := d.force_count_
      force_count_ := 0
      before_escape_value_lookup_count_ := d.value_lookup_count_
      value_lookup_count_ := 0
      before_escape_value_assign_count_ := d.value_assign_count_
      value_assign_count_ := 0
      before_escape_expression_lookup_count_ := d.expression_lookup_count_
      expression_lookup_count_ := 0
      before_escape_expression_assign_count_ := d.expression_assign_count_
      expression_assign_count_ := 0
      before_escape_environment_lookup_count_ := d.environment_lookup_count_
      environment_lookup_count_ := 0
      before_escape_environment_assign_count_ := d.environment_assign_count_
      environment_assign_count_ := 0 }
  else d

/-! ## Counter operations and their getters (DenotedValue.h:206-329)

`++c` on a `std::uint8_t` is `(c + 1) % 256`; a `std::uint8_t` return value of the sum of
two `std::uint8_t` (computed in `int`) is that sum `% 256`. -/

/-- Member `force`: `check_and_set_escape_(); ++force_count_;`. -/
@[simp]
def DenotedValue.force (d : DenotedValue) : DenotedValue :=
  let e := d.check_and_set_escape_
  { e with force_count_ := (e.force_count_ + 1) % 256 }

/-- Member `get_force_count_before_escape`. -/
@[simp]
def DenotedValue.get_force_count_before_escape (d : DenotedValue) : Nat :=
  d.before_escape_force_count_

/-- Member `get_force_count_after_escape`. -/
@[simp]
def DenotedValue.get_force_count_after_escape (d : DenotedValue) : Nat :=
  d.force_count_

/-- Member `get_force_count`, returning `std::uint8_t`. -/
@[simp]
def DenotedValue.get_force_count (d : DenotedValue) : Nat :=
  (d.get_force_count_before_escape + d.get_force_count_after_escape) % 256

/-- Member `lookup_value`: `check_and_set_escape_(); ++value_lookup_count_;`. -/
@[simp]
def DenotedValue.lookup_value (d : DenotedValue) : DenotedValue :=
  let e := d.check_and_set_escape_
  { e with value_lookup_count_ := (e.value_lookup_count_ + 1) % 256 }

/-- Member `get_value_lookup_count_before_escape`. -/
@[simp]
def DenotedValue.get_value_lookup_count_before_escape (d : DenotedValue) : Nat :=
  d.before_escape_value_lookup_count_

/-- Member `get_value_lookup_count_after_escape`. -/
@[simp]
def DenotedValue.get_value_lookup_count_after_escape (d : DenotedValue) : Nat :=
  d.value_lookup_count_

/-- Member `get_value_lookup_count`, returning `std::uint8_t`. -/
@[simp]
def DenotedValue.get_value_lookup_count (d : DenotedValue) : Nat :=
  (d.get_value_lookup_count_before_escape + d.get_value_lookup_count_after_escape) % 256

/-- Member `assign_value`: `check_and_set_escape_(); ++value_assign_count_;`. -/
@[simp]
def DenotedValue.assign_value (d : DenotedValue) : DenotedValue :=
  let e := d.check_and_set_escape_
  { e with value_assign_count_ := (e.value_assign_count_ + 1) % 256 }

/-- Member `get_value_assign_count_before_escape`. -/
@[simp]
def DenotedValue.get_value_assign_count_before_escape (d : DenotedValue) : Nat :=
  d.before_escape_value_assign_count_

/-- Member `get_value_assign_count_after_escape`. -/
@[simp]
def DenotedValue.get_value_assign_count_after_escape (d : DenotedValue) : Nat :=
  d.value_assign_count_

/-- Member `get_value_assign_count`, returning `std::uint8_t`. -/
@[simp]
def DenotedValue.get_value_assign_count (d : DenotedValue) : Nat :=
  (d.get_value_assign_count_before_escape + d.get_value_assign_count_after_escape) % 256

/-- Member `lookup_expression`: `check_and_set_escape_(); ++expression_lookup_count_;`. -/
@[simp]
def DenotedValue.lookup_expression (d : DenotedValue) : DenotedValue :=
  let e := d.check_and_set_escape_
  { e with expression_lookup_count_ := (e.expression_lookup_count_ + 1) % 256 }

/-- Member `get_expression_lookup_count_before_escape`. -/
@[simp]
def DenotedValue.get_expression_lookup_count_before_escape (d : DenotedValue) : Nat :=
  d.before_escape_expression_lookup_count_

/-- Member `get_expression_lookup_count_after_escape`. -/
@[simp]
def DenotedValue.get_expression_lookup_count_after_escape (d : DenotedValue) : Nat :=
  d.expression_lookup_count_

/-- Member `get_expression_lookup_count`, returning `std::uint8_t`. -/
@[simp]
def DenotedValue.get_expression_lookup_count (d : DenotedValue) : Nat :=
  (d.get_expression_lookup_count_before_escape + d.get_expression_lookup_count_after_escape) % 256

/-- Member `assign_expression`: `check_and_set_escape_(); ++expression_assign_count_;`. -/
@[simp]
def DenotedValue.assign_expression (d : DenotedValue) : DenotedValue :=
  let e := d.check_and_set_escape_
  { e with expression_assign_count_ := (e.expression_assign_count_ + 1) % 256 }

/-- Member `get_expression_assign_count_before_escape`. -/
@[simp]
def DenotedValue.get_expression_assign_count_before_escape (d : DenotedValue) : Nat :=
  d.before_escape_expression_assign_count_

/-- Member `get_expression_assign_count_after_escape`. -/
@[simp]
def DenotedValue.get_expression_assign_count_after_escape (d : DenotedValue) : Nat :=
  d.expression_assign_count_

/-- Member `get_expression_assign_count`, returning `std::uint8_t`. -/
@[simp]
def DenotedValue.get_expression_assign_count (d : DenotedValue) : Nat :=
  (d.get_expression_assign_count_before_escape + d.get_expression_assign_count_after_escape) % 256

/-- Member `lookup_environment`: `check_and_set_escape_(); ++environment_lookup_count_;`. -/
@[simp]
def DenotedValue.lookup_environment (d : DenotedValue) : DenotedValue :=
  let e := d.check_and_set_escape_
  { e with environment_lookup_count_ := (e.environment_lookup_count_ + 1) % 256 }

/-- Member `get_environment_lookup_count_before_escape`. -/
@[simp]
def DenotedValue.get_environment_lookup_count_before_escape (d : DenotedValue) : Nat :=
  d.before_escape_environment_lookup_count_

/-- Member `get_environment_lookup_count_after_escape`. -/
@[simp]
def DenotedValue.get_environment_lookup_count_after_escape (d : DenotedValue) : Nat :=
  d.environment_lookup_count_

/-- Member `get_environment_lookup_count`, returning `std::uint8_t`. -/
@[simp]
def DenotedValue.get_environment_lookup_count (d : DenotedValue) : Nat :=
  (d.get_environment_lookup_count_before_escape + d.get_environment_lookup_count_after_escape) % 256

/-- Member `assign_environment`: `check_and_set_escape_(); ++environment_assign_count_;`. -/
@[simp]
def DenotedValue.assign_environment (d : DenotedValue) : DenotedValue :=
  let e := d.check_and_set_escape_
  { e with environment_assign_count_ := (e.environment_assign_count_ + 1) % 256 }

/-- Member `get_environment_assign_count_before_escape`. -/
@[simp]
def DenotedValue.get_environment_assign_count_before_escape (d : DenotedValue) : Nat :=
  d.before_escape_environment_assign_count_

/-- Member `get_environment_assign_count_after_escape`. -/
@[simp]
def DenotedValue.get_environment_assign_count_after_escape (d : DenotedValue) : Nat :=
  d.environment_assign_count_

/-- Member `get_environment_assign_count`, returning `std::uint8_t`. -/
@[simp]
def DenotedValue.get_environment_assign_count (d : DenotedValue) : Nat :=
  (d.get_environment_assign_count_before_escape + d.get_environment_assign_count_after_escape) % 256

/-- Member `is_forced`: `get_force_count()` converted to `bool`. -/
@[simp]
def DenotedValue.is_forced (d : DenotedValue) : Bool := d.get_force_count != 0

/-! ## Construction (DenotedValue.h:12-23, 409-446) -/

/-- Private constructor `DenotedValue(denoted_value_id_t id, bool local)`: the member
initialiser list, in the order written in the source. -/
def DenotedValue.create_id_local (H : Host) (id : denoted_value_id_t) (_loc : Bool) :
    DenotedValue :=
  { id_ := id
    type_ := H.UNASSIGNEDSXP
    expression_type_ := H.UNASSIGNEDSXP
    value_type_ := H.UNASSIGNEDSXP
    environment_ := nullptr
    local_ := false
    active_ := false
    argument_stack_ :=
      [⟨nullptr, H.UNASSIGNED_FORMAL_PARAMETER_POSITION,
        H.UNASSIGNED_ACTUAL_ARGUMENT_POSITION, false⟩]
    default_ := false
    evaluated_ := false
    was_argument_ := false
    scope_ := H.UNASSIGNED_FUNCTION_ID
    class_name_ := H.UNASSIGNED_CLASS_NAME
    dispatchee_ := false
    non_local_return_ := false
    transitive_side_effect_observer_ := false
    direct_side_effect_observer_ := false
    transitive_side_effect_creator_ := false
    direct_side_effect_creator_ := false
    transitive_lexical_scope_mutator_ := false
    direct_lexical_scope_mutator_ := false
    transitive_non_lexical_scope_mutator_ := false
    direct_non_lexical_scope_mutator_ := false
    creation_timestamp_ := H.UNDEFINED_TIMESTAMP
    execution_time_ := 0.0
    escape_ := false
    eval_depth_ := H.UNASSIGNED_PROMISE_EVAL_DEPTH
    previous_call_id_ := H.UNASSIGNED_CALL_ID
    previous_function_id_ := H.UNASSIGNED_FUNCTION_ID
    previous_formal_parameter_position_ := H.UNASSIGNED_FORMAL_PARAMETER_POSITION
    previous_actual_argument_position_ := H.UNASSIGNED_ACTUAL_ARGUMENT_POSITION
    previous_call_return_value_type_ := H.UNASSIGNEDSXP
    before_escape_force_count_ := 0
    force_count_ := 0
    before_escape_value_lookup_count_ := 0
    value_lookup_count_ := 0
    before_escape_value_assign_count_ := 0
    value_assign_count_ := 0
    before_escape_expression_lookup_count_ := 0
    expression_lookup_count_ := 0
    before_escape_expression_assign_count_ := 0
    expression_assign_count_ := 0
    before_escape_environment_lookup_count_ := 0
    environment_lookup_count_ := 0
    before_escape_environment_assign_count_ := 0
    environment_assign_count_ := 0 }

/-- Public constructor `DenotedValue(denoted_value_id_t id, SEXP object, bool local)`:
delegates to the private constructor, then records the type tag and, for a promise, the
tags of its expression and value and its environment. -/
def DenotedValue.create (H : Host) (id : denoted_value_id_t) (object : SEXP) (loc : Bool) :
    DenotedValue :=
  let d0 := DenotedValue.create_id_local H id loc
  let d1 := { d0 with type_ := H.type_of_sexp object }
  if d1.type_ == H.PROMSXP then
    let expr := H.dyntrace_get_promise_expression object
    let val := H.dyntrace_get_promise_value object
    let rho := H.dyntrace_get_promise_environment object
    ((d1.set_expression_type (H.type_of_sexp expr)).set_value_type
      (H.type_of_sexp val)).set_environment rho
  else d1

/-! ## Argument lifecycle (declared at DenotedValue.h:81-86) -/

/-- Modelled from the spec: the body of `DenotedValue::make_argument` is not in the files
at hand, only its declaration (DenotedValue.h:81).  Spec section 4.3: it pushes a new
Argument onto the stack, recording whether the binding arrived via a default value, and
sets `was_argument` true.  The default marker is "determined by the caller from call
context"; the call record being a bare handle here, it is the explicit argument `dflt`. -/
@[simp]
def DenotedValue.make_argument (d : DenotedValue) (call : CallPtr)
    (formal_parameter_position actual_argument_position : Int) (dflt : Bool) : DenotedValue :=
  { d with
    argument_stack_ := d.argument_stack_ ++
      [⟨call, formal_parameter_position, actual_argument_position, dflt⟩]
    was_argument_ := true }

/-- Modelled from the spec: the body of `DenotedValue::free_argument` is not in the files
at hand, only its declaration (DenotedValue.h:85).  Spec section 4.3: it pops the top
Argument, "asserting the stack has more than the sentinel" (popping the sentinel is a fatal
precondition failure, here `none`), and snapshots the popped entry's positions together with
the supplied call id, function id and return kind into the "previous call" fields. -/
@[simp]
def DenotedValue.free_argument (d : DenotedValue) (call_id : call_id_t)
    (function_id : function_id_t) (return_value_type : sexptype_t) : Option DenotedValue :=
  match d.argument_stack_.getLast? with
  | none => none
  | some top =>
    if d.argument_stack_.length > 1 then
      some { d with
        previous_call_id_ := call_id
        previous_function_id_ := function_id
        previous_formal_parameter_position_ := top.get_formal_parameter_position
        previous_actual_argument_position_ := top.get_actual_argument_position
        previous_call_return_value_type_ := return_value_type
        argument_stack_ := d.argument_stack_.dropLast }
    else none

/-! ## The interface as a transition system

The seven counter categories index the seven sibling groups of members
(`force`/`get_force_count`..., `lookup_value`/`get_value_lookup_count`..., ...), and `Op`
lists the mutating members of the class, so that statements about "every category" and
"every sequence of operations" can be written once. -/

/-- Counter categories of `DenotedValue`. -/
inductive Category where
  | force
  | value_lookup
  | value_assign
  | expression_lookup
  | expression_assign
  | environment_lookup
  | environment_assign
  deriving DecidableEq, Repr

/-- Getter of the total of category `X`: dispatches to the member `get_X_count`. -/
@[simp]
def DenotedValue.get_count (X : Category) (d : DenotedValue) : Nat :=
  match X with
  | .force => d.get_force_count
  | .value_lookup => d.get_value_lookup_count
  | .value_assign => d.get_value_assign_count
  | .expression_lookup => d.get_expression_lookup_count
  | .expression_assign => d.get_expression_assign_count
  | .environment_lookup => d.get_environment_lookup_count
  | .environment_assign => d.get_environment_assign_count

/-- Getter of the before-escape half of category `X`: dispatches to the member `get_X_count_before_escape`. -/
@[simp]
def DenotedValue.get_count_before_escape (X : Category) (d : DenotedValue) : Nat :=
  match X with
  | .force => d.get_force_count_before_escape
  | .value_lookup => d.get_value_lookup_count_before_escape
  | .value_assign => d.get_value_assign_count_before_escape
  | .expression_lookup => d.get_expression_lookup_count_before_escape
  | .expression_assign => d.get_expression_assign_count_before_escape
  | .environment_lookup => d.get_environment_lookup_count_before_escape
  | .environment_assign => d.get_environment_assign_count_before_escape

/-- Getter of the after-escape (live) half of category `X`: dispatches to the member `get_X_count_after_escape`. -/
@[simp]
def DenotedValue.get_count_after_escape (X : Category) (d : DenotedValue) : Nat :=
  match X with
  | .force => d.get_force_count_after_escape
  | .value_lookup => d.get_value_lookup_count_after_escape
  | .value_assign => d.get_value_assign_count_after_escape
  | .expression_lookup => d.get_expression_lookup_count_after_escape
  | .expression_assign => d.get_expression_assign_count_after_escape
  | .environment_lookup => d.get_environment_lookup_count_after_escape
  | .environment_assign => d.get_environment_assign_count_after_escape

/-- Counter operation of category `X`: dispatches to `force`, `lookup_value`, ... -/
@[simp]
def DenotedValue.observe (X : Category) (d : DenotedValue) : DenotedValue :=
  match X with
  | .force => d.force
  | .value_lookup => d.lookup_value
  | .value_assign => d.assign_value
  | .expression_lookup => d.lookup_expression
  | .expression_assign => d.assign_expression
  | .environment_lookup => d.lookup_environment
  | .environment_assign => d.assign_environment

/-- Mutating members of `DenotedValue`, with their arguments. -/
inductive Op where
  | force
  | lookup_value
  | assign_value
  | lookup_expression
  | assign_expression
  | lookup_environment
  | assign_environment
  | set_active
  | set_inactive
  | set_scope (scope : function_id_t)
  | set_class_name (class_name : String)
  | set_dispatchee
  | set_non_local_return
  | unset_dispatchee
  | set_transitive_side_effect_observer
  | set_direct_side_effect_observer
  | set_transitive_side_effect_creator
  | set_direct_side_effect_creator
  | set_transitive_lexical_scope_mutator
  | set_direct_lexical_scope_mutator
  | set_transitive_non_lexical_scope_mutator
  | set_direct_non_lexical_scope_mutator
  | set_creation_timestamp (creation_timestamp : timestamp_t)
  | set_execution_time (execution_time : Float)
  | add_execution_time (execution_time : Float)
  | set_environment (environment : SEXP)
  | set_expression_type (expression_type : sexptype_t)
  | set_value_type (value_type : sexptype_t)
  | set_evaluation_depth (eval_depth : eval_depth_t)
  | make_argument (call : CallPtr) (formal_parameter_position actual_argument_position : Int)
      (dflt : Bool)
  | free_argument (call_id : call_id_t) (function_id : function_id_t)
      (return_value_type : sexptype_t)

/-- Category of a counter operation, `none` for every other member. -/
def Op.category : Op → Option Category
  | .force => some .force
  | .lookup_value => some .value_lookup
  | .assign_value => some .value_assign
  | .lookup_expression => some .expression_lookup
  | .assign_expression => some .expression_assign
  | .lookup_environment => some .environment_lookup
  | .assign_environment => some .environment_assign
  | _ => none

/-- Counter operations: the seven members that call `check_and_set_escape_`. -/
def Op.isCounter (op : Op) : Bool := op.category.isSome

/-- Argument-stack operations: `make_argument` and `free_argument`. -/
def Op.isArgumentOp : Op → Bool
  | .make_argument _ _ _ _ => true
  | .free_argument _ _ _ => true
  | _ => false

/-- One member call. Only `free_argument` can fail (its precondition). -/
def step (d : DenotedValue) : Op → Option DenotedValue
  | .force => some d.force
  | .lookup_value => some d.lookup_value
  | .assign_value => some d.assign_value
  | .lookup_expression => some d.lookup_expression
  | .assign_expression => some d.assign_expression
  | .lookup_environment => some d.lookup_environment
  | .assign_environment => some d.assign_environment
  | .set_active => some d.set_active
  | .set_inactive => some d.set_inactive
  | .set_scope s => some (d.set_scope s)
  | .set_class_name s => some (d.set_class_name s)
  | .set_dispatchee => some d.set_dispatchee
  | .set_non_local_return => some d.set_non_local_return
  | .unset_dispatchee => some d.unset_dispatchee
  | .set_transitive_side_effect_observer => some d.set_transitive_side_effect_observer
  | .set_direct_side_effect_observer => some d.set_direct_side_effect_observer
  | .set_transitive_side_effect_creator => some d.set_transitive_side_effect_creator
  | .set_direct_side_effect_creator => some d.set_direct_side_effect_creator
  | .set_transitive_lexical_scope_mutator => some d.set_transitive_lexical_scope_mutator
  | .set_direct_lexical_scope_mutator => some d.set_direct_lexical_scope_mutator
  | .set_transitive_non_lexical_scope_mutator => some d.set_transitive_non_lexical_scope_mutator
  | .set_direct_non_lexical_scope_mutator => some d.set_direct_non_lexical_scope_mutator
  | .set_creation_timestamp t => some (d.set_creation_timestamp t)
  | .set_execution_time t => some (d.set_execution_time t)
  | .add_execution_time t => some (d.add_execution_time t)
  | .set_environment e => some (d.set_environment e)
  | .set_expression_type t => some (d.set_expression_type t)
  | .set_value_type t => some (d.set_value_type t)
  | .set_evaluation_depth e => some (d.set_evaluation_depth e)
  | .make_argument c f a b => some (d.make_argument c f a b)
  | .free_argument c f r => d.free_argument c f r

/-- A sequence of member calls, left to right; `none` as soon as one call fails. -/
def run : List Op → DenotedValue → Option DenotedValue
  | [], d => some d
  | op :: ops, d => (step d op).bind (run ops)

/-- Number of operations of category `X` in a sequence. -/
def countOps (X : Category) (ops : List Op) : Nat :=
  ops.countP (fun op => op.category == some X)

/-- States reachable from a freshly constructed `DenotedValue` by member calls. -/
def Reachable (H : Host) (d : DenotedValue) : Prop :=
  ∃ (id : denoted_value_id_t) (object : SEXP) (loc : Bool) (ops : List Op),
    run ops (DenotedValue.create H id object loc) = some d

/-- Sample host constants for concrete evaluations: `PROMSXP` is R's tag 5, an object
handle is classified by its residue modulo 26, and the "unassigned" markers are arbitrary
fixed values. -/
def sampleHost : Host :=
  { PROMSXP := 5
    UNASSIGNEDSXP := 100003
    UNASSIGNED_FORMAL_PARAMETER_POSITION := -1
    UNASSIGNED_ACTUAL_ARGUMENT_POSITION := -1
    UNASSIGNED_FUNCTION_ID := "UNASSIGNED_FUNCTION_ID"
    UNASSIGNED_CLASS_NAME := "UNASSIGNED_CLASS_NAME"
    UNDEFINED_TIMESTAMP := 0
    UNASSIGNED_PROMISE_EVAL_DEPTH := -1
    UNASSIGNED_CALL_ID := -1
    type_of_sexp := fun o => o % 26
    dyntrace_get_promise_expression := fun o => o + 1
    dyntrace_get_promise_value := fun o => o + 2
    dyntrace_get_promise_environment := fun o => o + 3 }

/-- A binding that was pushed as an argument and popped again, with three forces and one
value lookup recorded while it was bound: not an argument, `was_argument_` set, not escaped. -/
def freedArgument : DenotedValue :=
  { DenotedValue.create sampleHost 1 5 true with
    was_argument_ := true
    previous_call_id_ := 7
    previous_function_id_ := "f"
    previous_formal_parameter_position_ := 0
    previous_actual_argument_position_ := 0
    previous_call_return_value_type_ := 0
    force_count_ := 3
    value_lookup_count_ := 1 }

/-- Calls that lead from construction to `freedArgument`. -/
def freedArgumentOps : List Op :=
  [Op.make_argument 1 0 0 false, Op.force, Op.force, Op.force, Op.lookup_value,
    Op.free_argument 7 "f" 0]

/-- The test made by `check_and_set_escape_`: not yet escaped, and
`!is_argument() && was_argument()`. -/
def DenotedValue.escapes_now (d : DenotedValue) : Bool :=
  !d.has_escaped && (!d.is_argument && d.was_argument)

/-- Range of `std::uint8_t`: all fourteen counter fields are below 256. -/
def DenotedValue.InRange (d : DenotedValue) : Prop :=
  ∀ X, d.get_count_before_escape X < 256 ∧ d.get_count_after_escape X < 256

/-- Pre-escape condition: while `has_escaped()` is false the seven before-escape fields
are zero. -/
def DenotedValue.PreEscapeZero (d : DenotedValue) : Prop :=
  d.has_escaped = false → ∀ X, d.get_count_before_escape X = 0

/-- Overflow scenario: bound as an argument, forced 255 times, released, forced once more. -/
def overflowOps : List Op :=
  [Op.make_argument 1 0 0 false] ++ List.replicate 255 Op.force ++
    [Op.free_argument 1 "f" 0, Op.force]

/-- The sentinel entry the constructor puts at the bottom of the argument stack. -/
def sentinel (H : Host) : Argument :=
  ⟨nullptr, H.UNASSIGNED_FORMAL_PARAMETER_POSITION, H.UNASSIGNED_ACTUAL_ARGUMENT_POSITION,
    false⟩

/-- Whether the operation is a `make_argument`. -/
def Op.isPush : Op → Bool
  | .make_argument _ _ _ _ => true
  | _ => false

/-- Whether the operation is a `free_argument`. -/
def Op.isPop : Op → Bool
  | .free_argument _ _ _ => true
  | _ => false

/-- Number of `make_argument` calls in a sequence. -/
def pushes (ops : List Op) : Nat := ops.countP Op.isPush

/-- Number of `free_argument` calls in a sequence. -/
def pops (ops : List Op) : Nat := ops.countP Op.isPop

/-- Properly nested (LIFO) use of the argument stack: in every prefix of the sequence the
`free_argument` calls do not outnumber the `make_argument` calls. -/
def ProperlyNested (ops : List Op) : Prop :=
  ∀ pre ∈ ops.inits, pops pre ≤ pushes pre

/-- Decision procedure for `ProperlyNested`, by enumeration of the prefixes. -/
instance (ops : List Op) : Decidable (ProperlyNested ops) :=
  inferInstanceAs (Decidable (∀ pre ∈ ops.inits, pops pre ≤ pushes pre))

/-- Nested use of the argument stack: two calls bind the value, then both release it. -/
def nestedOps : List Op :=
  [Op.make_argument 1 0 0 false, Op.make_argument 2 1 1 false, Op.free_argument 2 "g" 0,
    Op.free_argument 1 "f" 0]

/-! ## Classification flags, indexed

The eight flag members come in four sibling pairs; `Flag` and `Property` index them so
that statements about "each flag" and "each property" can be written once. -/

/-- The four classified properties. -/
inductive Property where
  | side_effect_observer
  | side_effect_creator
  | lexical_scope_mutator
  | non_lexical_scope_mutator
  deriving DecidableEq, Repr

/-- The eight classification flags. -/
inductive Flag where
  | transitive_side_effect_observer
  | direct_side_effect_observer
  | transitive_side_effect_creator
  | direct_side_effect_creator
  | transitive_lexical_scope_mutator
  | direct_lexical_scope_mutator
  | transitive_non_lexical_scope_mutator
  | direct_non_lexical_scope_mutator
  deriving DecidableEq, Repr

/-- Direct flag of a property. -/
def Flag.direct : Property → Flag
  | .side_effect_observer => .direct_side_effect_observer
  | .side_effect_creator => .direct_side_effect_creator
  | .lexical_scope_mutator => .direct_lexical_scope_mutator
  | .non_lexical_scope_mutator => .direct_non_lexical_scope_mutator

/-- Transitive flag of a property. -/
def Flag.transitive : Property → Flag
  | .side_effect_observer => .transitive_side_effect_observer
  | .side_effect_creator => .transitive_side_effect_creator
  | .lexical_scope_mutator => .transitive_lexical_scope_mutator
  | .non_lexical_scope_mutator => .transitive_non_lexical_scope_mutator

/-- Getter of flag `F`: dispatches to the member `is_F`. -/
@[simp]
def DenotedValue.get_flag (F : Flag) (d : DenotedValue) : Bool :=
  match F with
  | .transitive_side_effect_observer => d.is_transitive_side_effect_observer
  | .direct_side_effect_observer => d.is_direct_side_effect_observer
  | .transitive_side_effect_creator => d.is_transitive_side_effect_creator
  | .direct_side_effect_creator => d.is_direct_side_effect_creator
  | .transitive_lexical_scope_mutator => d.is_transitive_lexical_scope_mutator
  | .direct_lexical_scope_mutator => d.is_direct_lexical_scope_mutator
  | .transitive_non_lexical_scope_mutator => d.is_transitive_non_lexical_scope_mutator
  | .direct_non_lexical_scope_mutator => d.is_direct_non_lexical_scope_mutator

/-- Setter of flag `F`: dispatches to the member `set_F`. -/
@[simp]
def DenotedValue.set_flag (F : Flag) (d : DenotedValue) : DenotedValue :=
  match F with
  | .transitive_side_effect_observer => d.set_transitive_side_effect_observer
  | .direct_side_effect_observer => d.set_direct_side_effect_observer
  | .transitive_side_effect_creator => d.set_transitive_side_effect_creator
  | .direct_side_effect_creator => d.set_direct_side_effect_creator
  | .transitive_lexical_scope_mutator => d.set_transitive_lexical_scope_mutator
  | .direct_lexical_scope_mutator => d.set_direct_lexical_scope_mutator
  | .transitive_non_lexical_scope_mutator => d.set_transitive_non_lexical_scope_mutator
  | .direct_non_lexical_scope_mutator => d.set_direct_non_lexical_scope_mutator

/-- Writes the value `b` into the data member behind flag `F` and nothing else; used to
say that a setter touched no other member. -/
@[simp]
def DenotedValue.with_flag (F : Flag) (b : Bool) (d : DenotedValue) : DenotedValue :=
  match F with
  | .transitive_side_effect_observer => { d with transitive_side_effect_observer_ := b }
  | .direct_side_effect_observer => { d with direct_side_effect_observer_ := b }
  | .transitive_side_effect_creator => { d with transitive_side_effect_creator_ := b }
  | .direct_side_effect_creator => { d with direct_side_effect_creator_ := b }
  | .transitive_lexical_scope_mutator => { d with transitive_lexical_scope_mutator_ := b }
  | .direct_lexical_scope_mutator => { d with direct_lexical_scope_mutator_ := b }
  | .transitive_non_lexical_scope_mutator => { d with transitive_non_lexical_scope_mutator_ := b }
  | .direct_non_lexical_scope_mutator => { d with direct_non_lexical_scope_mutator_ := b }

/-- The parameterless flag setters: `set_active`, `set_inactive`, `set_dispatchee`,
`unset_dispatchee`, `set_non_local_return` and the eight classification setters. -/
def Op.isFlagSetter : Op → Bool
  | .set_active => true
  | .set_inactive => true
  | .set_dispatchee => true
  | .unset_dispatchee => true
  | .set_non_local_return => true
  | .set_transitive_side_effect_observer => true
  | .set_direct_side_effect_observer => true
  | .set_transitive_side_effect_creator => true
  | .set_direct_side_effect_creator => true
  | .set_transitive_lexical_scope_mutator => true
  | .set_direct_lexical_scope_mutator => true
  | .set_transitive_non_lexical_scope_mutator => true
  | .set_direct_non_lexical_scope_mutator => true
  | _ => false

/-- Whether the operation is a `set_creation_timestamp`. -/
def Op.isTimestampSetter : Op → Bool
  | .set_creation_timestamp _ => true
  | _ => false

/-- Wrap-around scenario: 256 calls of `force` on a fresh value. -/
def wrapOps : List Op := List.replicate 256 Op.force

/-! ## Analysis switch (utilities.cpp:47, 278-299; AnalysisSwitch.h)

The R API used by `to_analysis_switch` (`Rf_install`, `Rf_findVar`, `R_UnboundValue`, the
accessor `LOGICAL`) belongs to the host runtime and is the parameter record `RApi`;
`LOGICAL value i` stands for the C expression `LOGICAL(value)[i]`. -/

/-- R's logical `TRUE` (`Rboolean`). -/
def TRUE : Int := 1

/-- R's logical `FALSE` (`Rboolean`). -/
def FALSE : Int := 0

/-- R's logical `NA` (`NA_LOGICAL`, the smallest `int`). -/
def NA_LOGICAL : Int := -2147483648

/-- The part of the R API that `to_analysis_switch` calls. -/
structure RApi where
  R_UnboundValue : SEXP
  Rf_install : String → SEXP
  Rf_findVar : SEXP → SEXP → SEXP
  LOGICAL : SEXP → Nat → Int

/-- Function `sexp_to_bool`: `LOGICAL(value)[0] == TRUE`. -/
def sexp_to_bool (R : RApi) (value : SEXP) : Bool := R.LOGICAL value 0 == TRUE

/-- Class `AnalysisSwitch`: the members that `to_analysis_switch` assigns, in the order of
assignment (the header at hand declares five of them: `metadata`, `object_count_size`,
`function`, `strictness`, `side_effect`). -/
structure AnalysisSwitch where
  metadata : Bool
  object_count_size : Bool
  function : Bool
  promise_type : Bool
  promise_slot_mutation : Bool
  promise_evaluation : Bool
  strictness : Bool
  side_effect : Bool
  deriving DecidableEq, Repr

/-- The lambda `get_switch` inside `to_analysis_switch`: look up
`enable_<analysis_name>_analysis` in `env`; unbound gives `true`, otherwise
`sexp_to_bool` of the value. -/
def get_switch (R : RApi) (env : SEXP) (analysis_name : String) : Bool :=
  let name := R.Rf_install ("enable_" ++ analysis_name ++ "_analysis")
  let value := R.Rf_findVar name env
  if value == R.R_UnboundValue then true else sexp_to_bool R value

/-- Function `to_analysis_switch`. -/
def to_analysis_switch (R : RApi) (env : SEXP) : AnalysisSwitch :=
  { metadata := get_switch R env "metadata"
    object_count_size := get_switch R env "object_count_size"
    function := get_switch R env "function"
    promise_type := get_switch R env "promise_type"
    promise_slot_mutation := get_switch R env "promise_slot_mutation"
    promise_evaluation := get_switch R env "promise_evaluation"
    strictness := get_switch R env "strictness"
    side_effect := get_switch R env "side_effect" }

/-- The toggles read by `to_analysis_switch`. -/
inductive Toggle where
  | metadata
  | object_count_size
  | function
  | promise_type
  | promise_slot_mutation
  | promise_evaluation
  | strictness
  | side_effect
  deriving DecidableEq, Repr

/-- Analysis name of a toggle, as passed to `get_switch`. -/
def Toggle.analysis_name : Toggle → String
  | .metadata => "metadata"
  | .object_count_size => "object_count_size"
  | .function => "function"
  | .promise_type => "promise_type"
  | .promise_slot_mutation => "promise_slot_mutation"
  | .promise_evaluation => "promise_evaluation"
  | .strictness => "strictness"
  | .side_effect => "side_effect"

/-- Member of `AnalysisSwitch` that belongs to a toggle. -/
def AnalysisSwitch.get (s : AnalysisSwitch) : Toggle → Bool
  | .metadata => s.metadata
  | .object_count_size => s.object_count_size
  | .function => s.function
  | .promise_type => s.promise_type
  | .promise_slot_mutation => s.promise_slot_mutation
  | .promise_evaluation => s.promise_evaluation
  | .strictness => s.strictness
  | .side_effect => s.side_effect

/-- Value that `Rf_findVar` returns for the variable of a toggle. -/
def Toggle.variable (R : RApi) (env : SEXP) (t : Toggle) : SEXP :=
  R.Rf_findVar (R.Rf_install ("enable_" ++ t.analysis_name ++ "_analysis")) env

/-- Sample R API for concrete evaluations: in every environment
`enable_metadata_analysis` is bound to `FALSE` (object 10), `enable_strictness_analysis`
to `NA` (object 11), `enable_function_analysis` to `TRUE` (object 12), and nothing else is
bound (object 0 is the unbound marker). -/
def sampleR : RApi :=
  { R_UnboundValue := 0
    Rf_install := fun s =>
      if s = "enable_metadata_analysis" then 1
      else if s = "enable_strictness_analysis" then 2
      else if s = "enable_function_analysis" then 3
      else 4
    Rf_findVar := fun sym _ =>
      if sym = 1 then 10 else if sym = 2 then 11 else if sym = 3 then 12 else 0
    LOGICAL := fun value _ =>
      if value = 10 then FALSE else if value = 11 then NA_LOGICAL else TRUE }

/-! ## String utilities (utilities.cpp:36-45, 188-203)

A `std::string` and the bytes of a C string are lists of characters; a `char*` buffer is
the list of the bytes it points to.  The C library functions `strlen`, `strncpy` and
`strcpy` follow the C standard. -/

/-- The loop of `escape`: `it` is the part of `s` not yet read, `res` the result so far;
a newline or a tab appends four spaces, every other character is appended as it is. -/
def escape_loop : List Char → List Char → List Char
  | [], res => res
  | c :: it, res =>
    if c = Char.ofNat 10 then escape_loop it (res ++ [' ', ' ', ' ', ' '])
    else if c = Char.ofNat 9 then escape_loop it (res ++ [' ', ' ', ' ', ' '])
    else escape_loop it (res ++ [c])

/-- Function `escape` (utilities.cpp:188): the loop started with an empty result. -/
def escape (s : List Char) : List Char := escape_loop s []

/-- What the claim says `escape` computes: every newline and every tab replaced by four
spaces, every other character kept, in order. -/
def escape_spec (s : List Char) : List Char :=
  s.flatMap (fun c =>
    if c = Char.ofNat 10 ∨ c = Char.ofNat 9 then [' ', ' ', ' ', ' '] else [c])

/-- Number of newlines and tabs in a string. -/
def count_newlines_tabs (s : List Char) : Nat :=
  s.countP (fun c => decide (c = Char.ofNat 10 ∨ c = Char.ofNat 9))

/-- The terminating character of a C string. -/
def NUL : Char := Char.ofNat 0

/-- Number of values of `size_t` (64 bits): `buffer_size - 1` is computed modulo it. -/
def SIZE_MODULUS : Nat := 2 ^ 64

/-- C library `strlen`: number of characters before the first NUL. -/
def strlen (s : List Char) : Nat := (s.takeWhile (fun c => c != NUL)).length

/-- Writing the bytes `data` at the start of the buffer `dest`; the bytes of `dest` beyond
them stay. -/
def store (dest data : List Char) : List Char := data ++ dest.drop data.length

/-- C library `strncpy`: writes exactly `n` bytes, the first `n` characters of `src` or, if
`src` is shorter, all of them followed by NUL padding. -/
def strncpy (dest src : List Char) (n : Nat) : List Char :=
  let chars := (src.takeWhile (fun c => c != NUL)).take n
  store dest (chars ++ List.replicate (n - chars.length) NUL)

/-- C library `strcpy`: writes the characters of `src` and the terminating NUL. -/
def strcpy (dest src : List Char) : List Char :=
  store dest (src.takeWhile (fun c => c != NUL) ++ [NUL])

/-- Function `copy_string` (utilities.cpp:36).  The result is the content of the buffer
`destination` after the call; the pointer returned is `destination` itself. -/
def copy_string (destination source : List Char) (buffer_size : Nat) : List Char :=
  let l := strlen source
  if l ≥ buffer_size then
    let d1 := strncpy destination source ((buffer_size + SIZE_MODULUS - 1) % SIZE_MODULUS)
    d1.set ((buffer_size + SIZE_MODULUS - 1) % SIZE_MODULUS) NUL
  else
    strcpy destination source

/-! ## Timestamp (utilities.cpp:205-222) -/

/-- Reading of the monotonic clock, `struct timespec`. -/
structure timespec where
  tv_sec : Nat
  tv_nsec : Nat
  deriving DecidableEq, Repr

/-- Number of low bits a natural number loses when it is stored in the 53-bit significand
of a `double`: the least `e` with `n / 2 ^ e < 2 ^ 53` (the first argument bounds the
search and is taken to be `n`). -/
def excess_bits : Nat → Nat → Nat
  | 0, _ => 0
  | fuel + 1, n => if n < 2 ^ 53 then 0 else excess_bits fuel (n / 2) + 1

/-- Rounding of a natural number to the nearest `double` (IEEE 754 binary64, ties to the
even significand): exact below `2 ^ 53`, otherwise the sum or product keeps its 53 leading
bits. -/
def round_double (n : Nat) : Nat :=
  if n < 2 ^ 53 then n
  else
    let e := excess_bits n n
    let q := n / 2 ^ e
    let r := n % 2 ^ e
    if 2 ^ e < 2 * r ∨ (2 * r = 2 ^ e ∧ q % 2 = 1) then (q + 1) * 2 ^ e else q * 2 ^ e

/-- Function `timestamp` on a given clock reading: `t = ts.tv_sec * 1e9 + ts.tv_nsec`.
The operands are converted to `double`, the product and the sum are each rounded to a
`double`, and the result is converted to `uint64_t`, which is undefined from `2 ^ 64` on
(`none`).  Both branches of the `#if` compute the same expression. -/
def timestamp (ts : timespec) : Option Nat :=
  let t := round_double (round_double (round_double ts.tv_sec * 10 ^ 9) +
    round_double ts.tv_nsec)
  if t < 2 ^ 64 then some t else none

/-! ## Theorems -/

/-- C1 (escape trigger). In a state that has not escaped, is not an argument and was an
argument, each of the seven counter operations of category `X` sets `has_escaped`; every
before-escape getter then returns what the after-escape getter of the same category returned
just before the call; the after-escape getter of `X` returns 1 and that of every other
category returns 0. -/
theorem escape_trigger (d : DenotedValue) (X : Category)
    (hesc : d.has_escaped = false) (harg : d.is_argument = false)
    (hwas : d.was_argument = true) :
    (d.observe X).has_escaped = true ∧
    (∀ Y, (d.observe X).get_count_before_escape Y = d.get_count_after_escape Y) ∧
    (d.observe X).get_count_after_escape X = 1 ∧
    (∀ Y, Y ≠ X → (d.observe X).get_count_after_escape Y = 0) := by
  simp only [DenotedValue.has_escaped, DenotedValue.is_argument, DenotedValue.was_argument]
    at hesc harg hwas
  refine ⟨?_, ?_, ?_, ?_⟩
  · cases X <;> simp [hesc, harg, hwas]
  · intro Y
    cases X <;> cases Y <;> simp [hesc, harg, hwas]
  · cases X <;> simp [hesc, harg, hwas]
  · intro Y hY
    cases X <;> cases Y <;> simp [hesc, harg, hwas] at hY ⊢

/-- Witness for C1: the freed argument `freedArgument`, forced once. -/
theorem escape_trigger_witness :
    (freedArgument.has_escaped = false ∧ freedArgument.is_argument = false ∧
      freedArgument.was_argument = true) ∧
    ((freedArgument.observe .force).has_escaped = true ∧
      (∀ Y, (freedArgument.observe .force).get_count_before_escape Y =
        freedArgument.get_count_after_escape Y) ∧
      (freedArgument.observe .force).get_count_after_escape .force = 1 ∧
      (∀ Y, Y ≠ Category.force →
        (freedArgument.observe .force).get_count_after_escape Y = 0)) :=
  ⟨⟨rfl, rfl, rfl⟩, escape_trigger freedArgument .force rfl rfl rfl⟩

/-! ### Shared lemmas on single operations -/

/-- Escape flag after a counter operation. -/
theorem observe_has_escaped (d : DenotedValue) (X : Category) :
    (d.observe X).has_escaped = (d.has_escaped || d.escapes_now) := by
  cases he : d.escape_ <;> cases hw : d.was_argument_ <;>
    by_cases h : 1 < d.argument_stack_.length <;>
    cases X <;> simp [DenotedValue.escapes_now, he, hw, h]

/-- Before-escape halves after a counter operation. -/
theorem observe_before (d : DenotedValue) (X Y : Category) :
    (d.observe X).get_count_before_escape Y =
      if d.escapes_now then d.get_count_after_escape Y else d.get_count_before_escape Y := by
  cases he : d.escape_ <;> cases hw : d.was_argument_ <;>
    by_cases h : 1 < d.argument_stack_.length <;>
    cases X <;> cases Y <;> simp [DenotedValue.escapes_now, he, hw, h]

/-- After-escape halves after a counter operation. -/
theorem observe_after (d : DenotedValue) (X Y : Category) :
    (d.observe X).get_count_after_escape Y =
      if Y = X then ((if d.escapes_now then 0 else d.get_count_after_escape Y) + 1) % 256
      else (if d.escapes_now then 0 else d.get_count_after_escape Y) := by
  cases he : d.escape_ <;> cases hw : d.was_argument_ <;>
    by_cases h : 1 < d.argument_stack_.length <;>
    cases X <;> cases Y <;> simp [DenotedValue.escapes_now, he, hw, h]

/-- The total getter is the sum of the two halves, reduced to `std::uint8_t`. -/
theorem get_count_eq (d : DenotedValue) (X : Category) :
    d.get_count X = (d.get_count_before_escape X + d.get_count_after_escape X) % 256 := by
  cases X <;> simp

/-- A counter operation as a `step`. -/
theorem step_counter (d : DenotedValue) (op : Op) (X : Category)
    (h : op.category = some X) : step d op = some (d.observe X) := by
  cases op <;> simp [Op.category] at h <;> subst h <;> rfl

/-- Every member other than the seven counter operations leaves the escape flag and the
fourteen counter fields alone. -/
theorem step_other (d e : DenotedValue) (op : Op) (h : op.category = none)
    (hs : step d op = some e) :
    e.has_escaped = d.has_escaped ∧
    (∀ Y, e.get_count_before_escape Y = d.get_count_before_escape Y) ∧
    (∀ Y, e.get_count_after_escape Y = d.get_count_after_escape Y) := by
  cases op <;> simp [Op.category] at h <;> simp only [step, Option.some.injEq] at hs
  case free_argument c f r =>
    simp only [DenotedValue.free_argument] at hs
    split at hs
    · exact absurd hs (by simp)
    · split at hs
      · simp only [Option.some.injEq] at hs
        subst hs
        refine ⟨rfl, ?_, ?_⟩ <;> intro Y <;> cases Y <;> rfl
      · exact absurd hs (by simp)
  all_goals
    subst hs
    refine ⟨rfl, ?_, ?_⟩ <;> intro Y <;> cases Y <;> rfl

/-- Every operation has a category or has none. -/
theorem category_cases (op : Op) : (∃ X, op.category = some X) ∨ op.category = none := by
  cases h : op.category
  · exact Or.inr rfl
  · exact Or.inl ⟨_, rfl⟩

/-- The pre-escape condition is kept by every member call. -/
theorem step_preEscapeZero (d e : DenotedValue) (op : Op) (hpre : d.PreEscapeZero)
    (hs : step d op = some e) : e.PreEscapeZero := by
  intro hesc Y
  rcases category_cases op with ⟨X, hX⟩ | hnone
  · rw [step_counter d op X hX] at hs
    simp only [Option.some.injEq] at hs
    subst hs
    rw [observe_has_escaped] at hesc
    obtain ⟨h1, h2⟩ : d.has_escaped = false ∧ d.escapes_now = false := by
      simpa only [Bool.or_eq_false_iff] using hesc
    rw [observe_before, h2]
    simpa using hpre h1 Y
  · obtain ⟨he, hb, _⟩ := step_other d e op hnone hs
    rw [hb Y]
    exact hpre (he ▸ hesc) Y

/-- The range of `std::uint8_t` is kept by every member call. -/
theorem step_inRange (d e : DenotedValue) (op : Op) (hr : d.InRange)
    (hs : step d op = some e) : e.InRange := by
  intro Y
  rcases category_cases op with ⟨X, hX⟩ | hnone
  · rw [step_counter d op X hX] at hs
    simp only [Option.some.injEq] at hs
    subst hs
    rw [observe_before, observe_after]
    have hY := hr Y
    refine ⟨?_, ?_⟩
    · split <;> omega
    · split
      · exact Nat.mod_lt _ (by decide)
      · split <;> omega
  · obtain ⟨_, hb, ha⟩ := step_other d e op hnone hs
    rw [hb Y, ha Y]
    exact hr Y

/-- Total of a category after one member call: one more, modulo 256, when the call is a
counter operation of that category, unchanged otherwise. -/
theorem step_get_count (d e : DenotedValue) (op : Op) (X : Category) (hpre : d.PreEscapeZero)
    (hs : step d op = some e) :
    e.get_count X = (d.get_count X + (if op.category = some X then 1 else 0)) % 256 := by
  rcases category_cases op with ⟨Z, hZ⟩ | hnone
  · rw [step_counter d op Z hZ] at hs
    simp only [Option.some.injEq] at hs
    subst hs
    rw [get_count_eq, get_count_eq, observe_before, observe_after, hZ]
    cases hn : d.escapes_now
    · by_cases hXZ : X = Z
      · subst hXZ
        simp only [if_true, Bool.false_eq_true, if_false]
        omega
      · have hne : ¬ (some Z = some X) := by
          intro h
          exact hXZ (Option.some.inj h).symm
        simp only [hXZ, hne, if_false, Bool.false_eq_true]
        omega
    · have hesc : d.has_escaped = false := by
        simp only [DenotedValue.escapes_now, Bool.and_eq_true, Bool.not_eq_true'] at hn
        exact hn.1
      have hb := hpre hesc X
      by_cases hXZ : X = Z
      · subst hXZ
        simp only [if_true, hb]
        omega
      · have hne : ¬ (some Z = some X) := by
          intro h
          exact hXZ (Option.some.inj h).symm
        simp only [hXZ, hne, if_false, if_true, hb]
        omega
  · obtain ⟨_, hb, ha⟩ := step_other d e op hnone hs
    rw [get_count_eq, get_count_eq, hb X, ha X, hnone]
    simp

/-- A freshly constructed value has all counters zero and has not escaped. -/
theorem create_counters (H : Host) (id : denoted_value_id_t) (object : SEXP) (loc : Bool) :
    (DenotedValue.create H id object loc).has_escaped = false ∧
    (∀ X, (DenotedValue.create H id object loc).get_count_before_escape X = 0) ∧
    (∀ X, (DenotedValue.create H id object loc).get_count_after_escape X = 0) := by
  unfold DenotedValue.create
  simp only
  split
  · refine ⟨rfl, ?_, ?_⟩ <;> intro X <;> cases X <;> rfl
  · refine ⟨rfl, ?_, ?_⟩ <;> intro X <;> cases X <;> rfl

/-! ### Shared lemmas on sequences of operations -/

/-- Unfolding `run` at a non-empty sequence that succeeds. -/
theorem run_cons_some (op : Op) (ops : List Op) (d e : DenotedValue)
    (h : run (op :: ops) d = some e) : ∃ m, step d op = some m ∧ run ops m = some e := by
  simp only [run] at h
  cases hm : step d op with
  | none => simp [hm] at h
  | some m => exact ⟨m, rfl, by simpa [hm] using h⟩

/-- The pre-escape condition is kept along every sequence. -/
theorem run_preEscapeZero (ops : List Op) (d e : DenotedValue) (hpre : d.PreEscapeZero)
    (h : run ops d = some e) : e.PreEscapeZero := by
  induction ops generalizing d with
  | nil =>
    simp only [run, Option.some.injEq] at h
    exact h ▸ hpre
  | cons op ops ih =>
    obtain ⟨m, hm, hrest⟩ := run_cons_some op ops d e h
    exact ih m (step_preEscapeZero d m op hpre hm) hrest

/-- The range of `std::uint8_t` is kept along every sequence. -/
theorem run_inRange (ops : List Op) (d e : DenotedValue) (hr : d.InRange)
    (h : run ops d = some e) : e.InRange := by
  induction ops generalizing d with
  | nil =>
    simp only [run, Option.some.injEq] at h
    exact h ▸ hr
  | cons op ops ih =>
    obtain ⟨m, hm, hrest⟩ := run_cons_some op ops d e h
    exact ih m (step_inRange d m op hr hm) hrest

/-- Total of a category after a sequence: the starting total plus the number of
operations of that category, modulo 256. -/
theorem run_get_count (ops : List Op) (d e : DenotedValue) (X : Category)
    (hpre : d.PreEscapeZero) (h : run ops d = some e) :
    e.get_count X = (d.get_count X + countOps X ops) % 256 := by
  induction ops generalizing d with
  | nil =>
    simp only [run, Option.some.injEq] at h
    subst h
    rw [get_count_eq]
    simp [countOps]
  | cons op ops ih =>
    obtain ⟨m, hm, hrest⟩ := run_cons_some op ops d e h
    rw [ih m (step_preEscapeZero d m op hpre hm) hrest, step_get_count d m op X hpre hm]
    have hc : countOps X (op :: ops) =
        countOps X ops + (if op.category = some X then 1 else 0) := by
      simp [countOps, List.countP_cons]
    rw [hc]
    omega

/-- A freshly constructed value satisfies the pre-escape condition. -/
theorem create_preEscapeZero (H : Host) (id : denoted_value_id_t) (object : SEXP)
    (loc : Bool) : (DenotedValue.create H id object loc).PreEscapeZero :=
  fun _ X => (create_counters H id object loc).2.1 X

/-- A freshly constructed value has its counters in range. -/
theorem create_inRange (H : Host) (id : denoted_value_id_t) (object : SEXP)
    (loc : Bool) : (DenotedValue.create H id object loc).InRange := by
  intro X
  rw [(create_counters H id object loc).2.1 X, (create_counters H id object loc).2.2 X]
  exact ⟨by decide, by decide⟩

/-! ### Counter identity -/

/-- C2 (counter identity, amended). In every state reachable from construction and for
every category, both halves are below 256 and the total getter returns their sum reduced
modulo 256; it is their sum as a number exactly when that sum is at most 255, which is
always the case before the escape. -/
theorem counter_identity_mod (H : Host) (d : DenotedValue) (hr : Reachable H d)
    (X : Category) :
    d.get_count_before_escape X < 256 ∧ d.get_count_after_escape X < 256 ∧
    d.get_count X = (d.get_count_before_escape X + d.get_count_after_escape X) % 256 ∧
    (d.get_count X = d.get_count_before_escape X + d.get_count_after_escape X ↔
      d.get_count_before_escape X + d.get_count_after_escape X ≤ 255) ∧
    (d.has_escaped = false →
      d.get_count X = d.get_count_before_escape X + d.get_count_after_escape X) := by
  obtain ⟨id, object, loc, ops, hrun⟩ := hr
  have hrange := run_inRange ops _ d (create_inRange H id object loc) hrun X
  have hpre := run_preEscapeZero ops _ d (create_preEscapeZero H id object loc) hrun
  refine ⟨hrange.1, hrange.2, get_count_eq d X, ?_, ?_⟩
  · rw [get_count_eq]
    omega
  · intro hesc
    rw [get_count_eq, hpre hesc X]
    omega

/-- Witness for C2: the state after `make_argument` and one `force`. -/
theorem counter_identity_mod_witness :
    Reachable sampleHost
      (((DenotedValue.create sampleHost 1 5 true).make_argument 7 0 0 false).force) ∧
    (((DenotedValue.create sampleHost 1 5 true).make_argument 7 0 0 false).force).get_count
      Category.force = (0 + 1) % 256 :=
  ⟨⟨1, 5, true, [Op.make_argument 7 0 0 false, Op.force], rfl⟩,
    (counter_identity_mod sampleHost _
      ⟨1, 5, true, [Op.make_argument 7 0 0 false, Op.force], rfl⟩ Category.force).2.2.1⟩

/-- C2 counterexample. After `make_argument`, 255 calls of `force`, `free_argument` and one
more `force`, the halves are 255 and 1 (sum 256) while `get_force_count()` returns 0. -/
theorem counter_identity_counterexample :
    (run overflowOps (DenotedValue.create sampleHost 1 5 true)).map
      (fun d => (d.get_force_count, d.get_force_count_before_escape,
        d.get_force_count_after_escape)) = some (0, 255, 1) := by
  set_option maxRecDepth 100000 in decide

/-! ### The escape scenario -/

/-- C3 (scenario). For a fresh value with id 1 and `local = true` (a promise or any other
object), after `make_argument(callA, 0, 0)` and `force()` the force total is 1 with
before-escape half 0; `free_argument` then succeeds, and after the following
`lookup_value()` the value has escaped, the value-lookup halves are 0 (before) and 1
(after), and the force halves are 1 (before) and 0 (after). -/
theorem scenario_escape_after_free (H : Host) (object : SEXP) (callA : CallPtr)
    (dflt : Bool) (call_id : call_id_t) (function_id : function_id_t)
    (return_value_type : sexptype_t) :
    (((DenotedValue.create H 1 object true).make_argument callA 0 0 dflt).force).get_force_count
      = 1 ∧
    (((DenotedValue.create H 1 object true).make_argument callA 0 0
      dflt).force).get_force_count_before_escape = 0 ∧
    ((((DenotedValue.create H 1 object true).make_argument callA 0 0 dflt).force).free_argument
      call_id function_id return_value_type).map
      (fun d => (d.lookup_value.has_escaped,
        d.lookup_value.get_value_lookup_count_before_escape,
        d.lookup_value.get_value_lookup_count_after_escape,
        d.lookup_value.get_force_count_before_escape,
        d.lookup_value.get_force_count_after_escape)) = some (true, 0, 1, 1, 0) := by
  unfold DenotedValue.create
  simp only
  split <;> simp [DenotedValue.create_id_local]

/-- The state `freedArgument` is the result of `freedArgumentOps` on a fresh value. -/
theorem freedArgument_reached :
    run freedArgumentOps (DenotedValue.create sampleHost 1 5 true) = some freedArgument :=
  rfl

/-- Members other than `make_argument` and `free_argument` always succeed and leave the
argument stack and `was_argument_` alone. -/
theorem step_no_argument (d : DenotedValue) (op : Op) (h : op.isArgumentOp = false) :
    ∃ e, step d op = some e ∧ e.argument_stack_ = d.argument_stack_ ∧
      e.was_argument_ = d.was_argument_ := by
  cases op <;> simp only [Op.isArgumentOp] at h <;> first
    | exact absurd h (by decide)
    | (refine ⟨_, rfl, ?_, ?_⟩ <;> simp <;> split_ifs <;> rfl)

/-- A call of `step` fails only for `free_argument` on a value that is not an argument. -/
theorem step_none (d : DenotedValue) (op : Op) (h : step d op = none) :
    d.is_argument = false ∧ ∃ c f r, op = Op.free_argument c f r := by
  cases op with
  | free_argument c f r =>
    refine ⟨?_, c, f, r, rfl⟩
    simp only [step, DenotedValue.free_argument] at h
    split at h
    · rename_i hl
      simp only [List.getLast?_eq_none_iff] at hl
      simp [hl]
    · split at h
      · exact absurd h (by simp)
      · rename_i hlen
        simpa using hlen
  | _ => simp [step] at h

/-- One member call keeps `has_escaped()` true. -/
theorem step_has_escaped (d e : DenotedValue) (op : Op) (hesc : d.has_escaped = true)
    (hs : step d op = some e) : e.has_escaped = true := by
  rcases category_cases op with ⟨X, hX⟩ | hnone
  · rw [step_counter d op X hX] at hs
    simp only [Option.some.injEq] at hs
    subst hs
    rw [observe_has_escaped, hesc]
    rfl
  · rw [(step_other d e op hnone hs).1]
    exact hesc

/-! ### Escape monotonicity -/

/-- C4 (escape monotonicity). From a state in which `has_escaped()` is true, every
sequence of member calls (counter operations, setters, `make_argument`, `free_argument`)
that runs through ends in a state where `has_escaped()` is true; from there every single
member call again yields a state with `has_escaped()` true, the only call that yields no
state being a `free_argument` on a value that is not an argument. -/
theorem escape_monotone (ops : List Op) (d e : DenotedValue) (hesc : d.has_escaped = true)
    (hrun : run ops d = some e) :
    e.has_escaped = true ∧
    (∀ op m, step e op = some m → m.has_escaped = true) ∧
    (∀ op, step e op = none → e.is_argument = false ∧ ∃ c f r, op = Op.free_argument c f r) := by
  have key : e.has_escaped = true := by
    induction ops generalizing d with
    | nil =>
      simp only [run, Option.some.injEq] at hrun
      exact hrun ▸ hesc
    | cons op ops ih =>
      obtain ⟨m, hm, hrest⟩ := run_cons_some op ops d e hrun
      exact ih m (step_has_escaped d m op hesc hm) hrest
  exact ⟨key, fun op m hm => step_has_escaped e m op key hm, fun op h => step_none e op h⟩

/-- Witness for C4: the escaped state `freedArgument.force`, then bound as an argument again
and forced. -/
theorem escape_monotone_witness :
    freedArgument.force.has_escaped = true ∧
    run [Op.make_argument 2 1 1 false, Op.force] freedArgument.force =
      some ((freedArgument.force.make_argument 2 1 1 false).force) ∧
    ((freedArgument.force.make_argument 2 1 1 false).force).has_escaped = true :=
  ⟨rfl, rfl,
    (escape_monotone [Op.make_argument 2 1 1 false, Op.force] freedArgument.force _ rfl rfl).1⟩

/-! ### The no-escape case -/

/-- Without `make_argument`/`free_argument`, a value that never was an argument and has
not escaped stays so, and every call succeeds. -/
theorem run_never_argument (ops : List Op) (d : DenotedValue)
    (hops : ∀ op ∈ ops, op.isArgumentOp = false)
    (hw : d.was_argument = false) (hesc : d.has_escaped = false) :
    ∃ e, run ops d = some e ∧ e.was_argument = false ∧ e.has_escaped = false := by
  induction ops generalizing d with
  | nil => exact ⟨d, rfl, hw, hesc⟩
  | cons op ops ih =>
    obtain ⟨m, hm, _, hmw⟩ := step_no_argument d op (hops op (List.mem_cons_self _ _))
    have hw2 : m.was_argument = false := by
      simp only [DenotedValue.was_argument] at hw ⊢
      rw [hmw, hw]
    have hnow : d.escapes_now = false := by
      simp only [DenotedValue.escapes_now, hw, Bool.and_false]
    have hesc2 : m.has_escaped = false := by
      rcases category_cases op with ⟨X, hX⟩ | hnone
      · rw [step_counter d op X hX] at hm
        simp only [Option.some.injEq] at hm
        subst hm
        rw [observe_has_escaped, hesc, hnow]
        rfl
      · rw [(step_other d m op hnone hm).1]
        exact hesc
    obtain ⟨e, he, h1, h2⟩ := ih m (fun o ho => hops o (List.mem_cons_of_mem _ ho)) hw2 hesc2
    exact ⟨e, by simp [run, hm, he], h1, h2⟩

/-- A freshly constructed value never was an argument. -/
theorem create_was_argument (H : Host) (id : denoted_value_id_t) (object : SEXP)
    (loc : Bool) : (DenotedValue.create H id object loc).was_argument = false := by
  unfold DenotedValue.create
  simp only
  split <;> rfl

/-- C5 (no-escape case, amended). On a freshly constructed value, every sequence of counter
operations and setters (no `make_argument`, no `free_argument`) runs through, and after
every step (every prefix of the sequence) `has_escaped()` is false, every before-escape
getter returns 0, and the after-escape getter of each category returns what the total
getter returns: the number of operations of that category so far modulo 256 (the counter
is a `std::uint8_t`), which is that number itself as long as it is at most 255. -/
theorem no_escape_case (H : Host) (id : denoted_value_id_t) (object : SEXP) (loc : Bool)
    (ops pre : List Op) (hops : ∀ op ∈ ops, op.isArgumentOp = false) (hpre : pre <+: ops) :
    ∃ e, run pre (DenotedValue.create H id object loc) = some e ∧
      e.has_escaped = false ∧
      ∀ X, e.get_count_before_escape X = 0 ∧
        e.get_count_after_escape X = countOps X pre % 256 ∧
        e.get_count X = e.get_count_after_escape X ∧
        (countOps X pre ≤ 255 → e.get_count_after_escape X = countOps X pre) := by
  have hops2 : ∀ op ∈ pre, op.isArgumentOp = false := fun op h => hops op (hpre.subset h)
  obtain ⟨e, he, _, hesc⟩ := run_never_argument pre _ hops2
    (create_was_argument H id object loc) (create_counters H id object loc).1
  refine ⟨e, he, hesc, fun X => ?_⟩
  have hzero := run_preEscapeZero pre _ e (create_preEscapeZero H id object loc) he hesc X
  have hrange := (run_inRange pre _ e (create_inRange H id object loc) he X).2
  have htot := run_get_count pre _ e X (create_preEscapeZero H id object loc) he
  rw [get_count_eq (DenotedValue.create H id object loc),
    (create_counters H id object loc).2.1 X, (create_counters H id object loc).2.2 X] at htot
  have hsum := get_count_eq e X
  rw [hzero] at hsum
  refine ⟨hzero, ?_, ?_, ?_⟩
  · omega
  · omega
  · intro hn
    omega

/-- Witness for C5: two forces and a setter on a fresh value, observed after the second
call. -/
theorem no_escape_case_witness :
    (∀ op ∈ [Op.force, Op.set_active, Op.force], op.isArgumentOp = false) ∧
    [Op.force, Op.set_active] <+: [Op.force, Op.set_active, Op.force] ∧
    ∃ e, run [Op.force, Op.set_active] (DenotedValue.create sampleHost 1 5 true) = some e ∧
      e.has_escaped = false ∧
      ∀ X, e.get_count_before_escape X = 0 ∧
        e.get_count_after_escape X = countOps X [Op.force, Op.set_active] % 256 ∧
        e.get_count X = e.get_count_after_escape X ∧
        (countOps X [Op.force, Op.set_active] ≤ 255 →
          e.get_count_after_escape X = countOps X [Op.force, Op.set_active]) :=
  ⟨by decide, ⟨[Op.force], rfl⟩,
    no_escape_case sampleHost 1 5 true [Op.force, Op.set_active, Op.force]
      [Op.force, Op.set_active] (by decide) ⟨[Op.force], rfl⟩⟩

/-- C5 counterexample. 256 calls of `force()` on a fresh value contain no `make_argument`
and no `free_argument`; the value has not escaped and the before-escape half is 0, but
`get_force_count_after_escape()` returns 0, not the 256 forces accumulated. -/
theorem no_escape_case_counterexample :
    (∀ op ∈ wrapOps, op.isArgumentOp = false) ∧
    countOps Category.force wrapOps = 256 ∧
    (run wrapOps (DenotedValue.create sampleHost 1 5 true)).map
      (fun d => (d.has_escaped, d.get_force_count_before_escape,
        d.get_force_count_after_escape)) = some (false, 0, 0) := by
  set_option maxRecDepth 100000 in decide

/-! ### The escape test -/

/-- C6 (escape test, amended). In a state that has not escaped, a counter operation of
category `X` sets `has_escaped` if and only if `!is_argument() && was_argument()` holds in
that state.  When it holds, every before-escape half takes the value of the live half and
the live halves restart at zero (one for `X`); when it does not, the before-escape halves
are untouched and only the live half of `X` is incremented. -/
theorem escape_test (d : DenotedValue) (X : Category) (hesc : d.has_escaped = false) :
    ((d.observe X).has_escaped = true ↔ (!d.is_argument && d.was_argument) = true) ∧
    ((!d.is_argument && d.was_argument) = true → ∀ Y,
      (d.observe X).get_count_before_escape Y = d.get_count_after_escape Y ∧
      (d.observe X).get_count_after_escape Y = if Y = X then 1 else 0) ∧
    ((!d.is_argument && d.was_argument) = false → ∀ Y,
      (d.observe X).get_count_before_escape Y = d.get_count_before_escape Y ∧
      (d.observe X).get_count_after_escape Y =
        if Y = X then (d.get_count_after_escape Y + 1) % 256
        else d.get_count_after_escape Y) := by
  have hnow : d.escapes_now = (!d.is_argument && d.was_argument) := by
    simp only [DenotedValue.escapes_now, hesc, Bool.not_false, Bool.true_and]
  refine ⟨?_, ?_, ?_⟩
  · rw [observe_has_escaped, hesc, hnow, Bool.false_or]
  · intro ht Y
    rw [observe_before, observe_after, hnow, ht]
    simp
  · intro ht Y
    rw [observe_before, observe_after, hnow, ht]
    simp

/-- Witness for C6: the freed argument `freedArgument` and `lookup_value`. -/
theorem escape_test_witness :
    freedArgument.has_escaped = false ∧
    ((freedArgument.observe Category.value_lookup).has_escaped = true ↔
      (!freedArgument.is_argument && freedArgument.was_argument) = true) :=
  ⟨rfl, (escape_test freedArgument Category.value_lookup rfl).1⟩

/-- C6 counterexample. The freed argument `freedArgument` has not escaped and `force()`
makes it escape, yet `is_free() && was_argument()` is false there (`is_free()` being
`!(is_argument() || was_argument())`, it is false whenever `was_argument()` is true). -/
theorem escape_test_counterexample :
    freedArgument.has_escaped = false ∧
    freedArgument.force.has_escaped = true ∧
    (freedArgument.is_free && freedArgument.was_argument) = false := by
  decide

/-! ### Single logical counter -/

/-- Totals are not changed by `check_and_set_escape_` under the pre-escape condition. -/
theorem check_and_set_escape_get_count (d : DenotedValue) (hpre : d.PreEscapeZero)
    (X : Category) : d.check_and_set_escape_.get_count X = d.get_count X := by
  cases he : d.escape_
  · have hz := hpre he X
    cases hw : d.was_argument_ <;> by_cases h : 1 < d.argument_stack_.length <;>
      cases X <;> simp [he, hw, h] at hz ⊢ <;> simp [hz]
  · cases X <;> simp [he]

/-- C7 (single logical counter). For every sequence of member calls that runs through from
construction (counter operations, `make_argument`, `free_argument` and setters in any
order, across the escape transition) and every category `X`: if the sequence contains
`n ≤ 255` operations of category `X` then `get_X_count()` returns `n`; and the escape
transition `check_and_set_escape_` applied to the state reached changes no total. -/
theorem single_logical_counter (H : Host) (id : denoted_value_id_t) (object : SEXP)
    (loc : Bool) (ops : List Op) (e : DenotedValue) (X : Category)
    (hrun : run ops (DenotedValue.create H id object loc) = some e)
    (hn : countOps X ops ≤ 255) :
    e.get_count X = countOps X ops ∧
    ∀ Y, e.check_and_set_escape_.get_count Y = e.get_count Y := by
  have hpre := create_preEscapeZero H id object loc
  have htot := run_get_count ops _ e X hpre hrun
  rw [get_count_eq (DenotedValue.create H id object loc),
    (create_counters H id object loc).2.1 X, (create_counters H id object loc).2.2 X] at htot
  refine ⟨by omega, fun Y => ?_⟩
  exact check_and_set_escape_get_count e (run_preEscapeZero ops _ e hpre hrun) Y

/-- Witness for C7: the calls `freedArgumentOps` contain three forces. -/
theorem single_logical_counter_witness :
    run freedArgumentOps (DenotedValue.create sampleHost 1 5 true) = some freedArgument ∧
    countOps Category.force freedArgumentOps ≤ 255 ∧
    freedArgument.get_count Category.force = countOps Category.force freedArgumentOps :=
  ⟨rfl, by decide,
    (single_logical_counter sampleHost 1 5 true freedArgumentOps freedArgument Category.force
      rfl (by decide)).1⟩

/-! ### Construction -/

/-- C8 (construction and locality). The public constructor stores the identifier, but
`is_local()` of the constructed value is false whatever `local` was passed: the delegated
constructor initialises `local_` with the constant `false`. -/
theorem create_is_local (H : Host) (id : denoted_value_id_t) (object : SEXP) (loc : Bool) :
    (DenotedValue.create H id object loc).get_id = id ∧
    (DenotedValue.create H id object loc).is_local = false := by
  unfold DenotedValue.create
  simp only
  split <;> exact ⟨rfl, rfl⟩

/-! ### Argument stack -/

/-- A successful `free_argument` had more than the sentinel on the stack, removes the last
entry and leaves `was_argument_` alone. -/
theorem free_argument_some (d e : DenotedValue) (c : call_id_t) (f : function_id_t)
    (r : sexptype_t) (h : d.free_argument c f r = some e) :
    1 < d.argument_stack_.length ∧ e.argument_stack_ = d.argument_stack_.dropLast ∧
      e.was_argument_ = d.was_argument_ := by
  simp only [DenotedValue.free_argument] at h
  split at h
  · exact absurd h (by simp)
  · split at h
    · rename_i hlen
      simp only [Option.some.injEq] at h
      subst h
      exact ⟨hlen, rfl, rfl⟩
    · exact absurd h (by simp)

/-- With more than the sentinel on the stack, `free_argument` succeeds. -/
theorem free_argument_succeeds (d : DenotedValue) (c : call_id_t) (f : function_id_t)
    (r : sexptype_t) (h : 1 < d.argument_stack_.length) :
    ∃ e, d.free_argument c f r = some e := by
  simp only [DenotedValue.free_argument]
  cases hl : d.argument_stack_.getLast? with
  | none =>
    rw [List.getLast?_eq_none_iff] at hl
    rw [hl] at h
    exact absurd h (by decide)
  | some top =>
    have h2 : d.argument_stack_.length > 1 := h
    simp only [h2, if_true]
    exact ⟨_, rfl⟩

/-- A successful first call reduces `run` to the rest of the sequence. -/
theorem run_cons_of_step (op : Op) (ops : List Op) (d m : DenotedValue)
    (h : step d op = some m) : run (op :: ops) d = run ops m := by
  simp only [run, h]
  rfl

/-- Counting `make_argument` calls, one call at a time. -/
theorem pushes_cons (op : Op) (l : List Op) :
    pushes (op :: l) = pushes l + (if op.isPush = true then 1 else 0) :=
  List.countP_cons _ _ _

/-- Counting `free_argument` calls, one call at a time. -/
theorem pops_cons (op : Op) (l : List Op) :
    pops (op :: l) = pops l + (if op.isPop = true then 1 else 0) :=
  List.countP_cons _ _ _

/-- The three kinds of member call, as far as the argument stack is concerned. -/
theorem op_cases (op : Op) :
    (op.isArgumentOp = false ∧ op.isPush = false ∧ op.isPop = false) ∨
    (∃ c f a b, op = Op.make_argument c f a b) ∨ (∃ c f r, op = Op.free_argument c f r) := by
  cases op with
  | make_argument c f a b => exact Or.inr (Or.inl ⟨c, f, a, b, rfl⟩)
  | free_argument c f r => exact Or.inr (Or.inr ⟨c, f, r, rfl⟩)
  | _ => exact Or.inl ⟨rfl, rfl, rfl⟩

/-- Stack depth and `was_argument_` along a sequence whose prefixes never pop more than
`k` entries beyond what they push, started with `k + 1` entries on the stack. -/
theorem run_nested (ops : List Op) (d : DenotedValue) (k : Nat)
    (hlen : d.argument_stack_.length = k + 1)
    (hn : ∀ pre, pre <+: ops → pops pre ≤ k + pushes pre) :
    ∃ e, run ops d = some e ∧
      e.argument_stack_.length + pops ops = k + 1 + pushes ops ∧
      e.was_argument_ = (d.was_argument_ || decide (0 < pushes ops)) := by
  induction ops generalizing d k with
  | nil => exact ⟨d, rfl, by simp [pops, pushes, hlen], by simp [pushes]⟩
  | cons op ops ih =>
    have hhead := hn [op] (by simp)
    have htail : ∀ pre, pre <+: ops → pops (op :: pre) ≤ k + pushes (op :: pre) :=
      fun pre hp => hn (op :: pre) (by simpa using hp)
    rcases op_cases op with ⟨hno, hpu, hpo⟩ | ⟨c, f, a, b, rfl⟩ | ⟨c, f, r, rfl⟩
    · have hp1 : ∀ l, pushes (op :: l) = pushes l := by
        intro l
        simp [pushes_cons, hpu]
      have hp2 : ∀ l, pops (op :: l) = pops l := by
        intro l
        simp [pops_cons, hpo]
      obtain ⟨m, hm, hstack, hwas⟩ := step_no_argument d op hno
      obtain ⟨e, he, h1, h2⟩ := ih m k (by rw [hstack, hlen]) (fun pre hp => by
        have := htail pre hp
        rw [hp1, hp2] at this
        exact this)
      refine ⟨e, (run_cons_of_step op ops d m hm).trans he, ?_, ?_⟩
      · rw [hp1, hp2]
        exact h1
      · rw [h2, hp1, hwas]
    · have hp1 : ∀ l, pushes (Op.make_argument c f a b :: l) = pushes l + 1 := by
        intro l
        simp [pushes_cons, Op.isPush]
      have hp2 : ∀ l, pops (Op.make_argument c f a b :: l) = pops l := by
        intro l
        simp [pops_cons, Op.isPop]
      obtain ⟨e, he, h1, h2⟩ := ih (d.make_argument c f a b) (k + 1) (by simp [hlen])
        (fun pre hp => by
          have := htail pre hp
          rw [hp1, hp2] at this
          omega)
      refine ⟨e, (run_cons_of_step (Op.make_argument c f a b) ops d _ rfl).trans he, ?_, ?_⟩
      · rw [hp1, hp2]
        omega
      · rw [h2, hp1]
        simp
    · have hp1 : ∀ l, pushes (Op.free_argument c f r :: l) = pushes l := by
        intro l
        simp [pushes_cons, Op.isPush]
      have hp2 : ∀ l, pops (Op.free_argument c f r :: l) = pops l + 1 := by
        intro l
        simp [pops_cons, Op.isPop]
      rw [hp1, hp2] at hhead
      have hk : 1 ≤ k := by
        simp only [pops, pushes, List.countP_nil] at hhead
        omega
      obtain ⟨m, hm⟩ := free_argument_succeeds d c f r (by omega)
      obtain ⟨_, hstack, hwas⟩ := free_argument_some d m c f r hm
      obtain ⟨e, he, h1, h2⟩ := ih m (k - 1)
        (by rw [hstack, List.length_dropLast, hlen]; omega)
        (fun pre hp => by
          have := htail pre hp
          rw [hp1, hp2] at this
          omega)
      refine ⟨e, (run_cons_of_step (Op.free_argument c f r) ops d m hm).trans he, ?_, ?_⟩
      · rw [hp1, hp2]
        omega
      · rw [h2, hp1, hwas]

/-- A freshly constructed value has exactly the sentinel on its argument stack. -/
theorem create_argument_stack (H : Host) (id : denoted_value_id_t) (object : SEXP)
    (loc : Bool) : (DenotedValue.create H id object loc).argument_stack_ = [sentinel H] := by
  unfold DenotedValue.create
  simp only
  split <;> rfl

/-- The sentinel stays at the bottom of the argument stack in every member call. -/
theorem step_sentinel (H : Host) (d e : DenotedValue) (op : Op)
    (h : ∃ rest, d.argument_stack_ = sentinel H :: rest) (hs : step d op = some e) :
    ∃ rest, e.argument_stack_ = sentinel H :: rest := by
  obtain ⟨rest, hrest⟩ := h
  rcases op_cases op with ⟨hno, _, _⟩ | ⟨c, f, a, b, rfl⟩ | ⟨c, f, r, rfl⟩
  · obtain ⟨m, hm, hstack, _⟩ := step_no_argument d op hno
    rw [hm, Option.some.injEq] at hs
    subst hs
    exact ⟨rest, by rw [hstack, hrest]⟩
  · simp only [step, Option.some.injEq] at hs
    subst hs
    exact ⟨rest ++ [⟨c, f, a, b⟩], by simp [hrest]⟩
  · obtain ⟨hlen, hstack, _⟩ := free_argument_some d e c f r hs
    have hne : rest ≠ [] := by
      intro h0
      rw [hrest, h0] at hlen
      exact absurd hlen (Nat.lt_irrefl 1)
    exact ⟨rest.dropLast, by rw [hstack, hrest, List.dropLast_cons_of_ne_nil hne]⟩

/-- The sentinel is at the bottom of the argument stack in every reachable state. -/
theorem reachable_sentinel (H : Host) (d : DenotedValue) (hr : Reachable H d) :
    ∃ rest, d.argument_stack_ = sentinel H :: rest := by
  obtain ⟨id, object, loc, ops, hrun⟩ := hr
  have h0 : ∃ rest, (DenotedValue.create H id object loc).argument_stack_ =
      sentinel H :: rest := ⟨[], create_argument_stack H id object loc⟩
  generalize DenotedValue.create H id object loc = s at hrun h0
  induction ops generalizing s with
  | nil =>
    simp only [run, Option.some.injEq] at hrun
    exact hrun ▸ h0
  | cons op ops ih =>
    obtain ⟨m, hm, hrest⟩ := run_cons_some op ops s d hrun
    exact ih m hrest (step_sentinel H s m op h0 hm)

/-! ### Argument position of a non-argument -/

/-- C9 (argument position of a non-argument, amended). In every state reachable from
construction in which `is_argument()` is false, `get_formal_parameter_position()` and
`get_actual_argument_position()` do not fail: they read the sentinel entry and return
`UNASSIGNED_FORMAL_PARAMETER_POSITION` and `UNASSIGNED_ACTUAL_ARGUMENT_POSITION`. -/
theorem argument_position_of_non_argument (H : Host) (d : DenotedValue)
    (hr : Reachable H d) (harg : d.is_argument = false) :
    d.get_formal_parameter_position = some H.UNASSIGNED_FORMAL_PARAMETER_POSITION ∧
    d.get_actual_argument_position = some H.UNASSIGNED_ACTUAL_ARGUMENT_POSITION := by
  obtain ⟨rest, hrest⟩ := reachable_sentinel H d hr
  have hnil : rest = [] := by
    cases rest with
    | nil => rfl
    | cons a t => simp [hrest] at harg
  subst hnil
  simp [hrest, sentinel]

/-- Witness for C9: the freed argument `freedArgument`. -/
theorem argument_position_of_non_argument_witness :
    Reachable sampleHost freedArgument ∧ freedArgument.is_argument = false ∧
    freedArgument.get_formal_parameter_position =
      some sampleHost.UNASSIGNED_FORMAL_PARAMETER_POSITION ∧
    freedArgument.get_actual_argument_position =
      some sampleHost.UNASSIGNED_ACTUAL_ARGUMENT_POSITION :=
  ⟨⟨1, 5, true, freedArgumentOps, rfl⟩, rfl,
    argument_position_of_non_argument sampleHost freedArgument
      ⟨1, 5, true, freedArgumentOps, rfl⟩ rfl⟩

/-- C9 counterexample. A freshly constructed value is not an argument, and both position
getters return a value (the sentinel's position, -1 with the sample constants) instead of
failing. -/
theorem argument_position_counterexample :
    (DenotedValue.create sampleHost 1 5 true).is_argument = false ∧
    (DenotedValue.create sampleHost 1 5 true).get_formal_parameter_position = some (-1) ∧
    (DenotedValue.create sampleHost 1 5 true).get_actual_argument_position = some (-1) := by
  decide

/-! ### Argument nesting -/

/-- C10 (argument nesting). For every properly nested sequence of calls on a freshly
constructed value and every prefix of it: the prefix runs through; the argument stack then
holds the sentinel plus one entry per `make_argument` not yet matched by a `free_argument`,
so its size is at least 1; `is_argument()` is true iff the `make_argument` calls outnumber
the `free_argument` calls; `was_argument()` is true iff there was at least one
`make_argument`; and when the calls are balanced (full unwind) `is_argument()` is false. -/
theorem argument_nesting (H : Host) (id : denoted_value_id_t) (object : SEXP) (loc : Bool)
    (ops pre : List Op) (hn : ProperlyNested ops) (hp : pre <+: ops) :
    ∃ e, run pre (DenotedValue.create H id object loc) = some e ∧
      e.argument_stack_.length = 1 + (pushes pre - pops pre) ∧
      1 ≤ e.argument_stack_.length ∧
      (e.is_argument = true ↔ pops pre < pushes pre) ∧
      (e.was_argument = true ↔ 0 < pushes pre) ∧
      (pushes pre = pops pre → e.is_argument = false) := by
  have hpre : ∀ p, p <+: pre → pops p ≤ 0 + pushes p := by
    intro p hpp
    have := hn p ((List.mem_inits p ops).2 (hpp.trans hp))
    omega
  obtain ⟨e, he, hlen, hwas⟩ := run_nested pre (DenotedValue.create H id object loc) 0
    (by rw [create_argument_stack]; rfl) hpre
  have hbal := hpre pre (List.prefix_refl pre)
  have hw0 : (DenotedValue.create H id object loc).was_argument_ = false :=
    create_was_argument H id object loc
  refine ⟨e, he, by omega, by omega, ?_, ?_, ?_⟩
  · simp only [DenotedValue.is_argument, decide_eq_true_eq]
    omega
  · simp only [DenotedValue.was_argument, hwas, hw0, Bool.false_or, decide_eq_true_eq]
  · intro hb
    simp only [DenotedValue.is_argument, decide_eq_false_iff_not]
    omega

/-- Witness for C10: `nestedOps` and its prefix of three calls. -/
theorem argument_nesting_witness :
    ProperlyNested nestedOps ∧ nestedOps.take 3 <+: nestedOps ∧
    ∃ e, run (nestedOps.take 3) (DenotedValue.create sampleHost 1 5 true) = some e ∧
      e.argument_stack_.length = 1 + (pushes (nestedOps.take 3) - pops (nestedOps.take 3)) ∧
      1 ≤ e.argument_stack_.length ∧
      (e.is_argument = true ↔ pops (nestedOps.take 3) < pushes (nestedOps.take 3)) ∧
      (e.was_argument = true ↔ 0 < pushes (nestedOps.take 3)) ∧
      (pushes (nestedOps.take 3) = pops (nestedOps.take 3) → e.is_argument = false) :=
  ⟨by decide, List.take_prefix 3 nestedOps,
    argument_nesting sampleHost 1 5 true nestedOps (nestedOps.take 3) (by decide)
      (List.take_prefix 3 nestedOps)⟩

/-! ### Free values -/

/-- C11 (is_free). In every state, `is_free()` is true if and only if `is_argument()` is
false and `was_argument()` is false. -/
theorem is_free_iff (d : DenotedValue) :
    d.is_free = true ↔ (d.is_argument = false ∧ d.was_argument = false) := by
  simp only [DenotedValue.is_free, Bool.not_eq_true', Bool.or_eq_false_iff]

/-! ### Construction defaults -/

/-- C12 (construction defaults). For every id, object and `local`, the constructed value
has all fourteen counters 0, has not escaped, has the eight classification flags false, is
not active, not a dispatchee, does no non-local return, is not and was not an argument, is
free, is not a default argument, has scope and previous function id
`UNASSIGNED_FUNCTION_ID`, class name `UNASSIGNED_CLASS_NAME`, the previous call id,
positions and return type unassigned, and an argument stack that is exactly the sentinel. -/
theorem construction_defaults (H : Host) (id : denoted_value_id_t) (object : SEXP)
    (loc : Bool) :
    (∀ X, (DenotedValue.create H id object loc).get_count_before_escape X = 0 ∧
      (DenotedValue.create H id object loc).get_count_after_escape X = 0 ∧
      (DenotedValue.create H id object loc).get_count X = 0) ∧
    (DenotedValue.create H id object loc).has_escaped = false ∧
    (∀ F, (DenotedValue.create H id object loc).get_flag F = false) ∧
    (DenotedValue.create H id object loc).is_active = false ∧
    (DenotedValue.create H id object loc).is_dispatchee = false ∧
    (DenotedValue.create H id object loc).does_non_local_return = false ∧
    (DenotedValue.create H id object loc).is_argument = false ∧
    (DenotedValue.create H id object loc).was_argument = false ∧
    (DenotedValue.create H id object loc).is_free = true ∧
    (DenotedValue.create H id object loc).is_default = some false ∧
    (DenotedValue.create H id object loc).get_scope = H.UNASSIGNED_FUNCTION_ID ∧
    (DenotedValue.create H id object loc).get_previous_function_id =
      H.UNASSIGNED_FUNCTION_ID ∧
    (DenotedValue.create H id object loc).get_class_name = H.UNASSIGNED_CLASS_NAME ∧
    (DenotedValue.create H id object loc).get_previous_call_id = H.UNASSIGNED_CALL_ID ∧
    (DenotedValue.create H id object loc).get_previous_formal_parameter_position =
      H.UNASSIGNED_FORMAL_PARAMETER_POSITION ∧
    (DenotedValue.create H id object loc).get_previous_actual_argument_position =
      H.UNASSIGNED_ACTUAL_ARGUMENT_POSITION ∧
    (DenotedValue.create H id object loc).get_previous_call_return_value_type =
      H.UNASSIGNEDSXP ∧
    (DenotedValue.create H id object loc).argument_stack_ =
      [⟨nullptr, H.UNASSIGNED_FORMAL_PARAMETER_POSITION,
        H.UNASSIGNED_ACTUAL_ARGUMENT_POSITION, false⟩] := by
  unfold DenotedValue.create
  simp only
  split
  all_goals
    refine ⟨fun X => by cases X <;> exact ⟨rfl, rfl, rfl⟩, rfl, fun F => by cases F <;> rfl,
      rfl, rfl, rfl, rfl, rfl, rfl, rfl, rfl, rfl, rfl, rfl, rfl, rfl, rfl, rfl⟩

/-- C13 (promise data). For every object, `get_type()` is the classifier's tag of the
object and `is_promise()` holds iff that tag is `PROMSXP`; for a promise the expression
type, value type and environment are the classifier's tags of the promise's expression
and value and the promise's environment; otherwise the two types are `UNASSIGNEDSXP` and
the environment is the null pointer. -/
theorem construction_promise_data (H : Host) (id : denoted_value_id_t) (object : SEXP)
    (loc : Bool) :
    (DenotedValue.create H id object loc).get_type = H.type_of_sexp object ∧
    ((DenotedValue.create H id object loc).is_promise H = true ↔
      H.type_of_sexp object = H.PROMSXP) ∧
    (H.type_of_sexp object = H.PROMSXP →
      (DenotedValue.create H id object loc).get_expression_type =
        H.type_of_sexp (H.dyntrace_get_promise_expression object) ∧
      (DenotedValue.create H id object loc).get_value_type =
        H.type_of_sexp (H.dyntrace_get_promise_value object) ∧
      (DenotedValue.create H id object loc).get_environment =
        H.dyntrace_get_promise_environment object) ∧
    (H.type_of_sexp object ≠ H.PROMSXP →
      (DenotedValue.create H id object loc).get_expression_type = H.UNASSIGNEDSXP ∧
      (DenotedValue.create H id object loc).get_value_type = H.UNASSIGNEDSXP ∧
      (DenotedValue.create H id object loc).get_environment = nullptr) := by
  unfold DenotedValue.create
  by_cases h : H.type_of_sexp object = H.PROMSXP
  · simp [h, DenotedValue.create_id_local]
  · simp [h, DenotedValue.create_id_local]

/-- Witness for C13: with the sample host, object 5 is a promise and object 6 is not. -/
theorem construction_promise_data_witness :
    (sampleHost.type_of_sexp 5 = sampleHost.PROMSXP ∧
      (DenotedValue.create sampleHost 1 5 true).get_expression_type =
        sampleHost.type_of_sexp (sampleHost.dyntrace_get_promise_expression 5) ∧
      (DenotedValue.create sampleHost 1 5 true).get_value_type =
        sampleHost.type_of_sexp (sampleHost.dyntrace_get_promise_value 5) ∧
      (DenotedValue.create sampleHost 1 5 true).get_environment =
        sampleHost.dyntrace_get_promise_environment 5) ∧
    (sampleHost.type_of_sexp 6 ≠ sampleHost.PROMSXP ∧
      (DenotedValue.create sampleHost 1 6 true).get_expression_type =
        sampleHost.UNASSIGNEDSXP ∧
      (DenotedValue.create sampleHost 1 6 true).get_value_type = sampleHost.UNASSIGNEDSXP ∧
      (DenotedValue.create sampleHost 1 6 true).get_environment = nullptr) :=
  ⟨⟨rfl, (construction_promise_data sampleHost 1 5 true).2.2.1 rfl⟩,
    ⟨by decide, (construction_promise_data sampleHost 1 6 true).2.2.2 (by decide)⟩⟩

/-! ### Classification flags -/

/-- C14 (direct setters). For each of the four properties `P` and every state,
`set_direct_P()` makes `is_direct_P()` true, leaves `is_transitive_P()` and the other six
flags as they were, and touches no other member: writing the old value of the direct flag
back gives the original state.  On a freshly constructed value,
`set_direct_side_effect_creator()` leaves `is_transitive_side_effect_creator()` false. -/
theorem direct_setter_frame (P : Property) (d : DenotedValue) :
    (d.set_flag (Flag.direct P)).get_flag (Flag.direct P) = true ∧
    (d.set_flag (Flag.direct P)).get_flag (Flag.transitive P) =
      d.get_flag (Flag.transitive P) ∧
    (∀ F, F ≠ Flag.direct P → (d.set_flag (Flag.direct P)).get_flag F = d.get_flag F) ∧
    (d.set_flag (Flag.direct P)).with_flag (Flag.direct P) (d.get_flag (Flag.direct P)) = d ∧
    (∀ (H : Host) (id : denoted_value_id_t) (object : SEXP) (loc : Bool),
      (DenotedValue.create H id object
        loc).set_direct_side_effect_creator.is_transitive_side_effect_creator = false) := by
  refine ⟨?_, ?_, ?_, ?_, ?_⟩
  · cases P <;> rfl
  · cases P <;> rfl
  · intro F hF
    cases P <;> cases F <;> first
      | rfl
      | exact absurd rfl hF
  · cases P <;> rfl
  · intro H id object loc
    unfold DenotedValue.create
    simp only
    split <;> rfl

/-- Witness for C14: `set_direct_side_effect_creator` on a fresh value leaves the direct
observer flag false. -/
theorem direct_setter_frame_witness :
    Flag.direct_side_effect_observer ≠ Flag.direct Property.side_effect_creator ∧
    ((DenotedValue.create sampleHost 1 5 true).set_flag
      (Flag.direct Property.side_effect_creator)).get_flag Flag.direct_side_effect_observer =
      (DenotedValue.create sampleHost 1 5 true).get_flag Flag.direct_side_effect_observer :=
  ⟨by decide,
    (direct_setter_frame Property.side_effect_creator
      (DenotedValue.create sampleHost 1 5 true)).2.2.1 Flag.direct_side_effect_observer
      (by decide)⟩

/-- Counter operations leave the eight classification flags alone. -/
theorem observe_get_flag (d : DenotedValue) (X : Category) (F : Flag) :
    (d.observe X).get_flag F = d.get_flag F := by
  cases X <;> cases F <;> simp <;> split_ifs <;> rfl

/-- A classification flag that is true stays true in every member call. -/
theorem step_get_flag (d e : DenotedValue) (op : Op) (F : Flag) (hs : step d op = some e)
    (h : d.get_flag F = true) : e.get_flag F = true := by
  rcases category_cases op with ⟨X, hX⟩ | hnone
  · rw [step_counter d op X hX] at hs
    simp only [Option.some.injEq] at hs
    subst hs
    rw [observe_get_flag]
    exact h
  · cases op <;> simp [Op.category] at hnone <;> simp only [step, Option.some.injEq] at hs
    case free_argument c f r =>
      simp only [DenotedValue.free_argument] at hs
      split at hs
      · exact absurd hs (by simp)
      · split at hs
        · simp only [Option.some.injEq] at hs
          subst hs
          cases F <;> exact h
        · exact absurd hs (by simp)
    all_goals
      subst hs
      cases F <;> first
        | exact h
        | rfl

/-- C15 (flags are monotone). For each of the eight classification flags, if its getter
returns true in a state then it returns true after every sequence of member calls (counter
operations, setters, `make_argument`, `free_argument`) that runs through. -/
theorem flags_monotone (F : Flag) (ops : List Op) (d e : DenotedValue)
    (hF : d.get_flag F = true) (hrun : run ops d = some e) : e.get_flag F = true := by
  induction ops generalizing d with
  | nil =>
    simp only [run, Option.some.injEq] at hrun
    exact hrun ▸ hF
  | cons op ops ih =>
    obtain ⟨m, hm, hrest⟩ := run_cons_some op ops d e hrun
    exact ih m (step_get_flag d m op F hm hF) hrest

/-- Witness for C15: the direct creator flag set on a fresh value, followed by a force, a
binding as argument and `set_inactive`. -/
theorem flags_monotone_witness :
    (DenotedValue.create sampleHost 1 5 true).set_direct_side_effect_creator.get_flag
      Flag.direct_side_effect_creator = true ∧
    run [Op.force, Op.make_argument 1 0 0 false, Op.set_inactive]
      (DenotedValue.create sampleHost 1 5 true).set_direct_side_effect_creator =
      some (((DenotedValue.create sampleHost 1 5
        true).set_direct_side_effect_creator.force.make_argument 1 0 0 false).set_inactive) ∧
    (((DenotedValue.create sampleHost 1 5
      true).set_direct_side_effect_creator.force.make_argument 1 0 0
      false).set_inactive).get_flag Flag.direct_side_effect_creator = true :=
  ⟨rfl, rfl,
    flags_monotone Flag.direct_side_effect_creator
      [Op.force, Op.make_argument 1 0 0 false, Op.set_inactive]
      (DenotedValue.create sampleHost 1 5 true).set_direct_side_effect_creator
      (((DenotedValue.create sampleHost 1 5
        true).set_direct_side_effect_creator.force.make_argument 1 0 0 false).set_inactive)
      rfl rfl⟩

/-! ### Setter idempotence -/

/-- C16 (setter idempotence). For each of the thirteen parameterless flag setters and
every state, the call succeeds and a second call of the same setter returns exactly the
state the first call returned. -/
theorem setter_idempotent (op : Op) (d : DenotedValue) (h : op.isFlagSetter = true) :
    ∃ e, step d op = some e ∧ step e op = some e := by
  cases op <;> simp only [Op.isFlagSetter] at h <;> first
    | exact ⟨_, rfl, rfl⟩
    | exact absurd h (by decide)

/-- Witness for C16: `set_dispatchee` on a fresh value. -/
theorem setter_idempotent_witness :
    Op.set_dispatchee.isFlagSetter = true ∧
    ∃ e, step (DenotedValue.create sampleHost 1 5 true) Op.set_dispatchee = some e ∧
      step e Op.set_dispatchee = some e :=
  ⟨rfl, setter_idempotent Op.set_dispatchee (DenotedValue.create sampleHost 1 5 true) rfl⟩

/-! ### Creation timestamp -/

/-- Members other than `set_creation_timestamp` leave `creation_timestamp_` alone. -/
theorem step_creation_timestamp (d e : DenotedValue) (op : Op)
    (hop : op.isTimestampSetter = false) (hs : step d op = some e) :
    e.creation_timestamp_ = d.creation_timestamp_ := by
  rcases category_cases op with ⟨X, hX⟩ | hnone
  · rw [step_counter d op X hX] at hs
    simp only [Option.some.injEq] at hs
    subst hs
    cases X <;> simp <;> split_ifs <;> rfl
  · cases op <;> simp [Op.category] at hnone <;> simp only [step, Option.some.injEq] at hs
    case free_argument c f r =>
      simp only [DenotedValue.free_argument] at hs
      split at hs
      · exact absurd hs (by simp)
      · split at hs
        · simp only [Option.some.injEq] at hs
          subst hs
          rfl
        · exact absurd hs (by simp)
    case set_creation_timestamp t => exact absurd hop (by simp [Op.isTimestampSetter])
    all_goals
      subst hs
      rfl

/-- C17 (creation timestamp, amended). After `set_creation_timestamp(t1)`,
`get_creation_timestamp()` returns `t1` after every sequence of member calls that contains
no further `set_creation_timestamp`; a later `set_creation_timestamp(t2)` replaces the value:
the getter then returns `t2`. -/
theorem creation_timestamp_kept (t1 : timestamp_t) (ops : List Op) (d e : DenotedValue)
    (hno : ∀ op ∈ ops, op.isTimestampSetter = false)
    (hrun : run ops (d.set_creation_timestamp t1) = some e) :
    e.get_creation_timestamp = t1 ∧
    ∀ t2, (e.set_creation_timestamp t2).get_creation_timestamp = t2 := by
  refine ⟨?_, fun t2 => rfl⟩
  have key : ∀ (l : List Op) (s : DenotedValue), (∀ op ∈ l, op.isTimestampSetter = false) →
      run l s = some e → e.creation_timestamp_ = s.creation_timestamp_ := by
    intro l
    induction l with
    | nil =>
      intro s _ h
      simp only [run, Option.some.injEq] at h
      rw [h]
    | cons op l ih =>
      intro s hl h
      obtain ⟨m, hm, hrest⟩ := run_cons_some op l s e h
      rw [ih m (fun o ho => hl o (List.mem_cons_of_mem _ ho)) hrest]
      exact step_creation_timestamp s m op (hl op (List.mem_cons_self _ _)) hm
  exact key ops _ hno hrun

/-- Witness for C17: timestamp 10 set on a fresh value, then a force and `set_active`. -/
theorem creation_timestamp_kept_witness :
    (∀ op ∈ [Op.force, Op.set_active], op.isTimestampSetter = false) ∧
    run [Op.force, Op.set_active]
      ((DenotedValue.create sampleHost 1 5 true).set_creation_timestamp 10) =
      some ((DenotedValue.create sampleHost 1 5 true).set_creation_timestamp
        10).force.set_active ∧
    ((DenotedValue.create sampleHost 1 5 true).set_creation_timestamp
      10).force.set_active.get_creation_timestamp = 10 :=
  ⟨by decide, rfl,
    (creation_timestamp_kept 10 [Op.force, Op.set_active]
      (DenotedValue.create sampleHost 1 5 true) _ (by decide) rfl).1⟩

/-- C17 counterexample. After `set_creation_timestamp(10)` and then
`set_creation_timestamp(20)` on a fresh value, `get_creation_timestamp()` returns 20, not
10. -/
theorem creation_timestamp_counterexample :
    (((DenotedValue.create sampleHost 1 5 true).set_creation_timestamp
      10).set_creation_timestamp 20).get_creation_timestamp = 20 ∧
    (((DenotedValue.create sampleHost 1 5 true).set_creation_timestamp
      10).set_creation_timestamp 20).get_creation_timestamp ≠ 10 := by
  decide

/-! ### Pre-escape invariant -/

/-- C19 (pre-escape invariant). In every state reachable from construction in which
`has_escaped()` is false, all seven before-escape getters return 0; hence the escape
transition `check_and_set_escape_` discards nothing: for every category the two halves
after it add up to what they added up to before it. -/
theorem pre_escape_invariant (H : Host) (d : DenotedValue) (hr : Reachable H d)
    (hesc : d.has_escaped = false) :
    (∀ X, d.get_count_before_escape X = 0) ∧
    (∀ X, d.check_and_set_escape_.get_count_before_escape X +
        d.check_and_set_escape_.get_count_after_escape X =
      d.get_count_before_escape X + d.get_count_after_escape X) := by
  obtain ⟨id, object, loc, ops, hrun⟩ := hr
  have hz := run_preEscapeZero ops _ d (create_preEscapeZero H id object loc) hrun hesc
  refine ⟨hz, fun X => ?_⟩
  have hzX := hz X
  simp only [DenotedValue.has_escaped] at hesc
  cases hw : d.was_argument_ <;> by_cases h : 1 < d.argument_stack_.length <;>
    cases X <;> simp [hesc, hw, h] at hzX ⊢ <;> simp [hzX]

/-- Witness for C19: the freed argument `freedArgument`. -/
theorem pre_escape_invariant_witness :
    Reachable sampleHost freedArgument ∧ freedArgument.has_escaped = false ∧
    ∀ X, freedArgument.get_count_before_escape X = 0 :=
  ⟨⟨1, 5, true, freedArgumentOps, rfl⟩, rfl,
    (pre_escape_invariant sampleHost freedArgument ⟨1, 5, true, freedArgumentOps, rfl⟩
      rfl).1⟩

/-! ### Forced values -/

/-- C20 (is_forced, amended). For every sequence of member calls that runs through from
construction, `is_forced()` is true if and only if the number of `force()` calls in the
sequence is not a multiple of 256 (`get_force_count()` being a `std::uint8_t`); so for up
to 255 `force()` calls it is true if and only if there was at least one. -/
theorem is_forced_iff (H : Host) (id : denoted_value_id_t) (object : SEXP) (loc : Bool)
    (ops : List Op) (e : DenotedValue)
    (hrun : run ops (DenotedValue.create H id object loc) = some e) :
    (e.is_forced = true ↔ countOps Category.force ops % 256 ≠ 0) ∧
    (countOps Category.force ops ≤ 255 →
      (e.is_forced = true ↔ 0 < countOps Category.force ops)) := by
  have htot := run_get_count ops _ e Category.force
    (create_preEscapeZero H id object loc) hrun
  rw [get_count_eq (DenotedValue.create H id object loc),
    (create_counters H id object loc).2.1 Category.force,
    (create_counters H id object loc).2.2 Category.force] at htot
  have hf : e.is_forced = true ↔ e.get_count Category.force ≠ 0 := by
    simp only [DenotedValue.is_forced, DenotedValue.get_count, bne_iff_ne]
  refine ⟨?_, fun hn => ?_⟩
  · rw [hf, htot]
    omega
  · rw [hf, htot]
    omega

/-- Witness for C20: the calls `freedArgumentOps` contain three forces. -/
theorem is_forced_iff_witness :
    run freedArgumentOps (DenotedValue.create sampleHost 1 5 true) = some freedArgument ∧
    (freedArgument.is_forced = true ↔ countOps Category.force freedArgumentOps % 256 ≠ 0) :=
  ⟨rfl, (is_forced_iff sampleHost 1 5 true freedArgumentOps freedArgument rfl).1⟩

/-- C20 counterexample. After 256 calls of `force()` on a fresh value, `is_forced()` is
false although the sequence contains `force()` calls. -/
theorem is_forced_counterexample :
    countOps Category.force wrapOps = 256 ∧
    (run wrapOps (DenotedValue.create sampleHost 1 5 true)).map DenotedValue.is_forced =
      some false := by
  set_option maxRecDepth 100000 in decide

/-! ### Analysis switch -/

/-- C18 (analysis switch defaults). For every environment and every toggle read by
`to_analysis_switch`: if the variable `enable_<n>_analysis` is unbound the toggle is true;
if it is bound the toggle is true exactly when the first element of the bound value is
`TRUE`, so `FALSE` and `NA` both give false; and the toggle depends on its own variable
only: two environments that bind that variable to the same value give the same toggle. -/
theorem analysis_switch_defaults (R : RApi) (env : SEXP) (t : Toggle) :
    (t.variable R env = R.R_UnboundValue → (to_analysis_switch R env).get t = true) ∧
    (t.variable R env ≠ R.R_UnboundValue →
      ((to_analysis_switch R env).get t = true ↔ R.LOGICAL (t.variable R env) 0 = TRUE)) ∧
    (t.variable R env ≠ R.R_UnboundValue →
      (R.LOGICAL (t.variable R env) 0 = FALSE ∨ R.LOGICAL (t.variable R env) 0 = NA_LOGICAL) →
      (to_analysis_switch R env).get t = false) ∧
    (∀ env2, t.variable R env2 = t.variable R env →
      (to_analysis_switch R env2).get t = (to_analysis_switch R env).get t) := by
  have hget : ∀ e, (to_analysis_switch R e).get t =
      (if (t.variable R e == R.R_UnboundValue) = true then true
        else R.LOGICAL (t.variable R e) 0 == TRUE) := by
    intro e
    cases t <;> rfl
  refine ⟨?_, ?_, ?_, ?_⟩
  · intro h
    rw [hget, if_pos (beq_iff_eq.2 h)]
  · intro h
    rw [hget, if_neg (fun hb => h (beq_iff_eq.1 hb)), beq_iff_eq]
  · intro h hv
    rw [hget, if_neg (fun hb => h (beq_iff_eq.1 hb))]
    rcases hv with hv | hv <;> rw [hv] <;> rfl
  · intro env2 h
    rw [hget, hget, h]

/-- Witness for C18: with the sample R API, `function` is bound to `TRUE`, `metadata` to
`FALSE`, `strictness` to `NA`, and `side_effect` is unbound. -/
theorem analysis_switch_defaults_witness :
    (Toggle.side_effect.variable sampleR 0 = sampleR.R_UnboundValue ∧
      (to_analysis_switch sampleR 0).get Toggle.side_effect = true) ∧
    (Toggle.metadata.variable sampleR 0 ≠ sampleR.R_UnboundValue ∧
      sampleR.LOGICAL (Toggle.metadata.variable sampleR 0) 0 = FALSE ∧
      (to_analysis_switch sampleR 0).get Toggle.metadata = false) ∧
    (Toggle.strictness.variable sampleR 0 ≠ sampleR.R_UnboundValue ∧
      sampleR.LOGICAL (Toggle.strictness.variable sampleR 0) 0 = NA_LOGICAL ∧
      (to_analysis_switch sampleR 0).get Toggle.strictness = false) :=
  ⟨⟨by decide, (analysis_switch_defaults sampleR 0 Toggle.side_effect).1 (by decide)⟩,
    ⟨by decide, by decide,
      (analysis_switch_defaults sampleR 0 Toggle.metadata).2.2.1 (by decide)
        (Or.inl (by decide))⟩,
    ⟨by decide, by decide,
      (analysis_switch_defaults sampleR 0 Toggle.strictness).2.2.1 (by decide)
        (Or.inr (by decide))⟩⟩

/-! ### Frame of the counter operations -/

/-- C21 (counter operations are framed). In every state that satisfies the pre-escape
condition, a counter operation of category `X` leaves the total of every other category
`Y` unchanged, also when it triggers the escape transition; it leaves the argument stack,
`was_argument`, the eight classification flags, active, dispatchee, non-local return,
scope, class name, the three type tags, the creation timestamp, the execution time, the
evaluation depth, the previous-call fields, the id, the locality and the environment
unchanged; and when `has_escaped()` was already true or `is_argument()` is true it leaves
both halves of `Y` unchanged. -/
theorem counter_operation_frame (d : DenotedValue) (X Y : Category)
    (hpre : d.PreEscapeZero) (hXY : Y ≠ X) :
    (d.observe X).get_count Y = d.get_count Y ∧
    ((d.observe X).argument_stack_ = d.argument_stack_ ∧
      (d.observe X).was_argument = d.was_argument ∧
      (∀ F, (d.observe X).get_flag F = d.get_flag F) ∧
      (d.observe X).is_active = d.is_active ∧
      (d.observe X).is_dispatchee = d.is_dispatchee ∧
      (d.observe X).does_non_local_return = d.does_non_local_return ∧
      (d.observe X).get_scope = d.get_scope ∧
      (d.observe X).get_class_name = d.get_class_name ∧
      (d.observe X).get_type = d.get_type ∧
      (d.observe X).get_expression_type = d.get_expression_type ∧
      (d.observe X).get_value_type = d.get_value_type ∧
      (d.observe X).get_creation_timestamp = d.get_creation_timestamp ∧
      (d.observe X).get_execution_time = d.get_execution_time ∧
      (d.observe X).get_evaluation_depth = d.get_evaluation_depth ∧
      (d.observe X).get_previous_call_id = d.get_previous_call_id ∧
      (d.observe X).get_previous_function_id = d.get_previous_function_id ∧
      (d.observe X).get_previous_formal_parameter_position =
        d.get_previous_formal_parameter_position ∧
      (d.observe X).get_previous_actual_argument_position =
        d.get_previous_actual_argument_position ∧
      (d.observe X).get_previous_call_return_value_type =
        d.get_previous_call_return_value_type ∧
      (d.observe X).get_id = d.get_id ∧
      (d.observe X).is_local = d.is_local ∧
      (d.observe X).get_environment = d.get_environment) ∧
    ((d.has_escaped = true ∨ d.is_argument = true) →
      (d.observe X).get_count_before_escape Y = d.get_count_before_escape Y ∧
      (d.observe X).get_count_after_escape Y = d.get_count_after_escape Y) := by
  refine ⟨?_, ?_, ?_⟩
  · rw [get_count_eq, get_count_eq, observe_before, observe_after, if_neg hXY]
    cases hn : d.escapes_now
    · simp only [Bool.false_eq_true, if_false]
    · have hesc : d.has_escaped = false := by
        simp only [DenotedValue.escapes_now, Bool.and_eq_true, Bool.not_eq_true'] at hn
        exact hn.1
      have hb := hpre hesc Y
      simp only [if_true, hb]
      omega
  · refine ⟨?_, ?_, fun F => observe_get_flag d X F, ?_, ?_, ?_, ?_, ?_, ?_, ?_, ?_, ?_, ?_,
      ?_, ?_, ?_, ?_, ?_, ?_, ?_, ?_, ?_⟩ <;>
      (cases X <;> simp <;> split_ifs <;> rfl)
  · intro h
    have hn : d.escapes_now = false := by
      rcases h with h | h
      · simp only [DenotedValue.escapes_now, h, Bool.not_true, Bool.false_and]
      · simp only [DenotedValue.escapes_now, h, Bool.not_true, Bool.false_and,
          Bool.and_false]
    rw [observe_before, observe_after, if_neg hXY, hn]
    simp

/-- The freed argument `freedArgument` satisfies the pre-escape condition. -/
theorem freedArgument_preEscapeZero : freedArgument.PreEscapeZero :=
  fun _ X => by cases X <;> rfl

/-- Witness for C21: `force()` on the freed argument `freedArgument` triggers the escape
and re-buckets the value-lookup count, whose total stays 1. -/
theorem counter_operation_frame_witness :
    Category.value_lookup ≠ Category.force ∧
    (freedArgument.observe Category.force).has_escaped = true ∧
    (freedArgument.observe Category.force).get_count Category.value_lookup =
      freedArgument.get_count Category.value_lookup :=
  ⟨by decide, rfl,
    (counter_operation_frame freedArgument Category.force Category.value_lookup
      freedArgument_preEscapeZero (by decide)).1⟩

/-! ### String escape -/

/-- The loop of `escape` appends the replaced text to the result so far. -/
theorem escape_loop_eq (s res : List Char) : escape_loop s res = res ++ escape_spec s := by
  induction s generalizing res with
  | nil => simp [escape_loop, escape_spec]
  | cons c it ih =>
    simp only [escape_loop]
    by_cases h10 : c = Char.ofNat 10
    · simp [h10, ih, escape_spec]
    · by_cases h9 : c = Char.ofNat 9
      · simp [h9, ih, escape_spec]
      · simp [h10, h9, ih, escape_spec]

/-- The replacement, one character at a time. -/
theorem escape_spec_cons (c : Char) (s : List Char) :
    escape_spec (c :: s) =
      (if c = Char.ofNat 10 ∨ c = Char.ofNat 9 then [' ', ' ', ' ', ' '] else [c]) ++
        escape_spec s := by
  simp [escape_spec]

/-- C22 (string escape). For every string `s`, `escape(s)` is `s` with each newline and
each tab replaced by four spaces and every other character kept in order; it contains no
newline and no tab; its length is the length of `s` plus three times the number of newlines
and tabs in `s`; it is `s` itself when `s` has no newline and no tab; and escaping twice
gives the same as escaping once. -/
theorem string_escape (s : List Char) :
    escape s = escape_spec s ∧
    (Char.ofNat 10 ∉ escape s ∧ Char.ofNat 9 ∉ escape s) ∧
    (escape s).length = s.length + 3 * count_newlines_tabs s ∧
    ((Char.ofNat 10 ∉ s ∧ Char.ofNat 9 ∉ s) → escape s = s) ∧
    escape (escape s) = escape s := by
  have heq : ∀ l, escape l = escape_spec l := fun l => by
    simp [escape, escape_loop_eq]
  have hclean : ∀ l : List Char, (Char.ofNat 10 ∉ l ∧ Char.ofNat 9 ∉ l) →
      escape_spec l = l := by
    intro l
    induction l with
    | nil => intro _; rfl
    | cons c l ih =>
      intro h
      simp only [List.mem_cons, not_or] at h
      have hc : ¬ (c = Char.ofNat 10 ∨ c = Char.ofNat 9) := by
        intro hh
        rcases hh with hh | hh
        · exact h.1.1 hh.symm
        · exact h.2.1 hh.symm
      rw [escape_spec_cons, if_neg hc, ih ⟨h.1.2, h.2.2⟩]
      rfl
  have hfree : ∀ l : List Char,
      Char.ofNat 10 ∉ escape_spec l ∧ Char.ofNat 9 ∉ escape_spec l := by
    intro l
    induction l with
    | nil => exact ⟨by simp [escape_spec], by simp [escape_spec]⟩
    | cons c l ih =>
      rw [escape_spec_cons]
      by_cases hc : c = Char.ofNat 10 ∨ c = Char.ofNat 9
      · rw [if_pos hc]
        refine ⟨?_, ?_⟩
        · intro hm
          rcases List.mem_append.1 hm with hm | hm
          · exact absurd hm (by decide)
          · exact ih.1 hm
        · intro hm
          rcases List.mem_append.1 hm with hm | hm
          · exact absurd hm (by decide)
          · exact ih.2 hm
      · rw [if_neg hc]
        refine ⟨?_, ?_⟩
        · intro hm
          rcases List.mem_append.1 hm with hm | hm
          · exact hc (Or.inl (List.mem_singleton.1 hm).symm)
          · exact ih.1 hm
        · intro hm
          rcases List.mem_append.1 hm with hm | hm
          · exact hc (Or.inr (List.mem_singleton.1 hm).symm)
          · exact ih.2 hm
  have hlen : ∀ l : List Char,
      (escape_spec l).length = l.length + 3 * count_newlines_tabs l := by
    intro l
    induction l with
    | nil => rfl
    | cons c l ih =>
      rw [escape_spec_cons, List.length_append, ih]
      by_cases hc : c = Char.ofNat 10 ∨ c = Char.ofNat 9
      · simp only [if_pos hc, count_newlines_tabs, List.countP_cons, decide_eq_true_eq,
          List.length_cons, List.length_nil]
        omega
      · simp only [if_neg hc, count_newlines_tabs, List.countP_cons, decide_eq_true_eq,
          List.length_cons, List.length_nil]
        omega
  refine ⟨heq s, ?_, ?_, ?_, ?_⟩
  · rw [heq]
    exact hfree s
  · rw [heq]
    exact hlen s
  · intro h
    rw [heq]
    exact hclean s h
  · rw [heq, heq]
    exact hclean _ (hfree s)

/-- Witness for C22: a string without newline or tab is returned as it is, and one with
a tab is escaped to the same text whether escaped once or twice. -/
theorem string_escape_witness :
    (Char.ofNat 10 ∉ ['a', 'b'] ∧ Char.ofNat 9 ∉ ['a', 'b']) ∧
    escape ['a', 'b'] = ['a', 'b'] ∧
    escape ['a', Char.ofNat 9, 'b'] = ['a', ' ', ' ', ' ', ' ', 'b'] :=
  ⟨by decide, (string_escape ['a', 'b']).2.2.2.1 (by decide), by decide⟩

/-! ### Bounded string copy -/

/-- Length of a NUL-terminated string. -/
theorem strlen_terminated (s rest : List Char) (hs : ∀ c ∈ s, c ≠ NUL) :
    strlen (s ++ NUL :: rest) = s.length := by
  have h1 : (s ++ NUL :: rest).takeWhile (fun c => c != NUL) = s := by
    rw [List.takeWhile_append_of_pos (fun a ha => by simpa using hs a ha)]
    simp
  simp only [strlen, h1]

/-- Characters of a NUL-terminated string, as the C library reads them. -/
theorem takeWhile_terminated (s rest : List Char) (hs : ∀ c ∈ s, c ≠ NUL) :
    (s ++ NUL :: rest).takeWhile (fun c => c != NUL) = s := by
  rw [List.takeWhile_append_of_pos (fun a ha => by simpa using hs a ha)]
  simp

/-- Content of the destination buffer after `copy_string`. -/
theorem copy_string_eq (s rest dest : List Char) (buffer_size : Nat)
    (hs : ∀ c ∈ s, c ≠ NUL) (hbs : 1 ≤ buffer_size) (hsz : buffer_size < SIZE_MODULUS)
    (hcap : buffer_size ≤ dest.length) :
    copy_string dest (s ++ NUL :: rest) buffer_size =
      s.take (min s.length (buffer_size - 1)) ++
        NUL :: dest.drop (min s.length (buffer_size - 1) + 1) := by
  have hm : (buffer_size + SIZE_MODULUS - 1) % SIZE_MODULUS = buffer_size - 1 := by
    have : buffer_size + SIZE_MODULUS - 1 = (buffer_size - 1) + SIZE_MODULUS := by omega
    rw [this, Nat.add_mod_right]
    exact Nat.mod_eq_of_lt (by omega)
  simp only [copy_string, strlen_terminated s rest hs, hm]
  by_cases hl : s.length ≥ buffer_size
  · rw [if_pos hl]
    have hmin : min s.length (buffer_size - 1) = buffer_size - 1 := by omega
    have hlen : (s.take (buffer_size - 1)).length = buffer_size - 1 := by
      rw [List.length_take]
      omega
    simp only [strncpy, store, takeWhile_terminated s rest hs, hlen, Nat.sub_self,
      List.replicate_zero, List.append_nil, hmin]
    rw [List.set_append_right _ _ (by omega), hlen, Nat.sub_self]
    have hd : buffer_size - 1 < dest.length := by omega
    rw [List.drop_eq_getElem_cons hd, List.set_cons_zero]
  · rw [if_neg hl]
    have hmin : min s.length (buffer_size - 1) = s.length := by omega
    simp [strcpy, store, takeWhile_terminated s rest hs, hmin]

/-- C23 (bounded string copy). For a source holding the characters `s` (none of them NUL)
followed by NUL, and a buffer of at least `buffer_size >= 1` bytes, `copy_string` leaves
in the destination the first `min(l, buffer_size - 1)` characters of the source followed
by a NUL, where `l` is the length of `s`; the bytes of the destination from index
`buffer_size` on are not written; the buffer keeps its size; and when `l < buffer_size`
the copy is the whole source with its NUL. -/
theorem copy_string_bounded (s rest dest : List Char) (buffer_size : Nat)
    (hs : ∀ c ∈ s, c ≠ NUL) (hbs : 1 ≤ buffer_size) (hsz : buffer_size < SIZE_MODULUS)
    (hcap : buffer_size ≤ dest.length) :
    (copy_string dest (s ++ NUL :: rest) buffer_size).take
        (min s.length (buffer_size - 1) + 1) =
      s.take (min s.length (buffer_size - 1)) ++ [NUL] ∧
    (copy_string dest (s ++ NUL :: rest) buffer_size).drop buffer_size =
      dest.drop buffer_size ∧
    (copy_string dest (s ++ NUL :: rest) buffer_size).length = dest.length ∧
    (s.length < buffer_size →
      (copy_string dest (s ++ NUL :: rest) buffer_size).take (s.length + 1) = s ++ [NUL]) := by
  rw [copy_string_eq s rest dest buffer_size hs hbs hsz hcap]
  have hk : (s.take (min s.length (buffer_size - 1))).length =
      min s.length (buffer_size - 1) := by
    rw [List.length_take]
    omega
  have hsplit : s.take (min s.length (buffer_size - 1)) ++
      NUL :: dest.drop (min s.length (buffer_size - 1) + 1) =
      (s.take (min s.length (buffer_size - 1)) ++ [NUL]) ++
        dest.drop (min s.length (buffer_size - 1) + 1) := by simp
  have hk1 : (s.take (min s.length (buffer_size - 1)) ++ [NUL]).length =
      min s.length (buffer_size - 1) + 1 := by
    rw [List.length_append, hk]
    rfl
  refine ⟨?_, ?_, ?_, ?_⟩
  · rw [hsplit]
    exact List.take_left' hk1
  · rw [hsplit, List.drop_append_eq_append_drop, hk1,
      List.drop_of_length_le (by rw [hk1]; omega), List.nil_append, List.drop_drop]
    congr 1
    omega
  · rw [hsplit, List.length_append, hk1, List.length_drop]
    omega
  · intro hl
    have hmin : min s.length (buffer_size - 1) = s.length := by omega
    rw [hsplit, hmin, List.take_of_length_le (Nat.le_refl _)]
    exact List.take_left' (by simp)

/-- Witness for C23: the source "abc" copied into a buffer of four bytes with
`buffer_size = 3` keeps two characters and the NUL, and the fourth byte is untouched. -/
theorem copy_string_bounded_witness :
    (∀ c ∈ ['a', 'b', 'c'], c ≠ NUL) ∧ 1 ≤ 3 ∧ 3 < SIZE_MODULUS ∧
    3 ≤ ['w', 'x', 'y', 'z'].length ∧
    copy_string ['w', 'x', 'y', 'z'] (['a', 'b', 'c'] ++ NUL :: []) 3 = ['a', 'b', NUL, 'z'] ∧
    (copy_string ['w', 'x', 'y', 'z'] (['a', 'b', 'c'] ++ NUL :: []) 3).drop 3 =
      ['w', 'x', 'y', 'z'].drop 3 :=
  ⟨by decide, by decide, by decide, by decide, by decide,
    (copy_string_bounded ['a', 'b', 'c'] [] ['w', 'x', 'y', 'z'] 3 (by decide) (by decide)
      (by decide) (by decide)).2.1⟩

/-! ### Timestamp unit -/

/-- In the range where the `double` arithmetic is exact, `timestamp` is the clock reading
in nanoseconds. -/
theorem timestamp_nanoseconds (ts : timespec) (h : ts.tv_sec * 10 ^ 9 + ts.tv_nsec < 2 ^ 53) :
    timestamp ts = some (ts.tv_sec * 10 ^ 9 + ts.tv_nsec) := by
  have hexact : ∀ n, n < 2 ^ 53 → round_double n = n := fun n hn => by
    simp only [round_double, hn, if_true]
  have h1 : ts.tv_sec < 2 ^ 53 := by omega
  have h2 : ts.tv_sec * 10 ^ 9 < 2 ^ 53 := by omega
  have h3 : ts.tv_nsec < 2 ^ 53 := by omega
  have h4 : ts.tv_sec * 10 ^ 9 + ts.tv_nsec < 2 ^ 64 := by omega
  simp only [timestamp, hexact _ h1, hexact _ h2, hexact _ h3, hexact _ h, h4, if_true]

/-- Beyond `2 ^ 53` the result is rounded: the reading of `2 ^ 53 + 1` nanoseconds gives
`2 ^ 53`, and that of `2 ^ 53 + 3` nanoseconds gives `2 ^ 53 + 4`. -/
theorem timestamp_rounded :
    timestamp ⟨9007199, 254740993⟩ = some 9007199254740992 ∧
    timestamp ⟨9007199, 254740995⟩ = some 9007199254740996 := by
  decide

/-- C24 (timestamp unit). For the clock reading of 1 second and 5000 nanoseconds
`timestamp` returns 1000005000, the reading in nanoseconds, where the microsecond value
`tv_sec * 10^6 + tv_nsec / 1000` is 1000005. -/
theorem timestamp_unit :
    timestamp ⟨1, 5000⟩ = some 1000005000 ∧
    timestamp ⟨1, 5000⟩ ≠ some (1 * 10 ^ 6 + 5000 / 1000) := by
  decide

end PromiseDynTracer
